import Mathlib

/-!
# Session bookkeeping of the RTSP server (`gst/rtsp-server/rtsp-session.c`)

A shallow embedding of the C file.  The objects the C code allocates and
mutates through pointers live in a `World`: one memory per object type, indexed
by address, together with the allocation frontier and a trace of the calls made
to collaborators (the media engine and the release functions).  A `GList` of
pointers is a `List Ptr`; a pointer that the code tests against `NULL` is an
`Option Ptr`.
-/

namespace RtspSession

/-- An address of an object.  `NULL` is not an address: nullable pointers are
`Option Ptr`. -/
abbrev Ptr := Nat

/-- `GstRTSPRange`: a pair of `gint`. -/
structure GstRTSPRange where
  min : Int
  max : Int
deriving DecidableEq, Repr

/-- `GstRTSPTransport` of the GStreamer RTSP library; the enumerations
(`trans`, `profile`, `lower_transport`) are kept as their integer values. -/
structure GstRTSPTransport where
  trans : Nat
  profile : Nat
  lower_transport : Nat
  destination : Option String
  source : Option String
  layers : Nat
  mode_play : Bool
  mode_record : Bool
  append : Bool
  interleaved : GstRTSPRange
  ttl : Nat
  port : GstRTSPRange
  client_port : GstRTSPRange
  server_port : GstRTSPRange
  ssrc : Nat
deriving DecidableEq, Repr

/-- `GstRTSPUrl` of the GStreamer RTSP library. -/
structure GstRTSPUrl where
  transports : Nat
  family : Nat
  user : Option String
  passwd : Option String
  host : Option String
  port : Nat
  abspath : String
  query : Option String
deriving DecidableEq, Repr

/-- `GstStateChangeReturn`. -/
inductive GstStateChangeReturn where
  | GST_STATE_CHANGE_FAILURE
  | GST_STATE_CHANGE_SUCCESS
  | GST_STATE_CHANGE_ASYNC
  | GST_STATE_CHANGE_NO_PREROLL
deriving DecidableEq, Repr

/-- `GstRTSPMediaStream`, owned by the media engine.  Only the field this file
reads is kept: the server port range reserved for the substream. -/
structure GstRTSPMediaStream where
  server_port : GstRTSPRange
deriving DecidableEq, Repr

/-- `GstRTSPSessionStream`: the substream it is bound to and the client
transport negotiated for it (`NULL` until one is set).  `media_stream` is
never tested against `NULL`; it is zero only between `g_new0` and the
assignment that follows it. -/
structure GstRTSPSessionStream where
  media_stream : Ptr
  client_trans : Option Ptr
deriving DecidableEq, Repr

/-- `GstRTSPSessionMedia`: the copied url, the media handle and the list of
session streams. -/
structure GstRTSPSessionMedia where
  url : Option Ptr
  media : Option Ptr
  streams : List Ptr
deriving DecidableEq, Repr

/-- `GstRTSPSession`. -/
structure GstRTSPSession where
  sessionid : Option String
  medias : List Ptr
deriving DecidableEq, Repr

/-- A call made by this file to a collaborator, in the order it is made. -/
inductive Call where
  | gst_rtsp_media_stream_add (media_stream : Ptr) (ct : Option Ptr)
  | gst_rtsp_media_play (media : Option Ptr)
  | gst_rtsp_media_pause (media : Option Ptr)
  | gst_rtsp_media_stop (media : Option Ptr)
  | gst_rtsp_transport_free (transport : Ptr)
  | gst_rtsp_url_free (url : Ptr)
  | g_object_unref (media : Ptr)
  | g_free_stream (stream : Ptr)
  | g_free_media (media : Ptr)
  | g_free_sessionid (sess : Ptr)
  | g_list_free (list : List Ptr)
  | parent_finalize (obj : Ptr)
deriving DecidableEq, Repr

/-- The memories, the allocation frontier `brk` (the address the next
allocation returns) and the trace of collaborator calls. -/
structure World where
  sessions : Ptr → GstRTSPSession
  medias : Ptr → GstRTSPSessionMedia
  streams : Ptr → GstRTSPSessionStream
  urls : Ptr → GstRTSPUrl
  transports : Ptr → GstRTSPTransport
  media_streams : Ptr → GstRTSPMediaStream
  brk : Ptr
  trace : List Call

/-- The media engine, as far as this file calls it.  `gst_rtsp_media_get_stream`
is a table lookup (`NULL` when there is no substream at the index); the status
of a state change may depend on every call made so far. -/
structure Engine where
  gst_rtsp_media_get_stream : Ptr → Nat → Option Ptr
  gst_rtsp_media_play : List Call → Option Ptr → GstStateChangeReturn
  gst_rtsp_media_pause : List Call → Option Ptr → GstStateChangeReturn
  gst_rtsp_media_stop : List Call → Option Ptr → GstStateChangeReturn

/-- What goes wrong when the code reads through a `NULL` pointer. -/
inductive Fault where
  | null_dereference
deriving DecidableEq, Repr

deriving instance DecidableEq for Except

/-- The character loop of `strcmp`: zero when both strings end together,
otherwise the sign of the first difference. -/
def strcmp_walk : List Char → List Char → Int
  | [], [] => 0
  | [], _ :: _ => -1
  | _ :: _, [] => 1
  | c1 :: s1, c2 :: s2 =>
    if c1 = c2 then strcmp_walk s1 s2 else if c1.toNat < c2.toNat then -1 else 1

/-- `strcmp` of the C library, on strings without an embedded NUL. -/
def strcmp (s1 s2 : String) : Int :=
  strcmp_walk s1.data s2.data

/-- Modelled from the spec: `gst_rtsp_transport_new` of the GStreamer RTSP
library, "constructs a new, empty Transport Descriptor"; the values are the
library's initial ones. -/
def gst_rtsp_transport_new : GstRTSPTransport :=
  { trans := 1, profile := 1, lower_transport := 2,
    destination := none, source := none, layers := 0,
    mode_play := true, mode_record := false, append := false,
    interleaved := ⟨-1, -1⟩, ttl := 0,
    port := ⟨-1, -1⟩, client_port := ⟨-1, -1⟩, server_port := ⟨-1, -1⟩,
    ssrc := 0 }

/-- `gst_rtsp_transport_free`: recorded in the trace. -/
def gst_rtsp_transport_free (w : World) (transport : Ptr) : World :=
  { w with trace := w.trace ++ [Call.gst_rtsp_transport_free transport] }

/-- `gst_rtsp_url_copy` of the GStreamer RTSP library: a new url object holding
the same field values. -/
def gst_rtsp_url_copy (w : World) (url : GstRTSPUrl) : World × Ptr :=
  ({ w with brk := w.brk + 1, urls := Function.update w.urls w.brk url }, w.brk)

/-- `gst_rtsp_session_manage_media` (lines 98-113). -/
def gst_rtsp_session_manage_media (w : World) (sess : Ptr) (uri : GstRTSPUrl)
    (media : Option Ptr) : World × Ptr :=
  -- result = g_new0 (GstRTSPSessionMedia, 1);
  let result := w.brk
  let w1 := { w with brk := w.brk + 1,
                     medias := Function.update w.medias result ⟨none, none, []⟩ }
  -- result->media = media;
  let w2 := { w1 with
    medias := Function.update w1.medias result { w1.medias result with media := media } }
  -- result->url = gst_rtsp_url_copy ((GstRTSPUrl *)uri);
  let c := gst_rtsp_url_copy w2 uri
  let w3 := { c.1 with
    medias := Function.update c.1.medias result { c.1.medias result with url := some c.2 } }
  -- sess->medias = g_list_prepend (sess->medias, result);
  -- (the g_message that follows only logs)
  let w4 := { w3 with
    sessions := Function.update w3.sessions sess
      { w3.sessions sess with medias := result :: (w3.sessions sess).medias } }
  (w4, result)

/-- The loop of `gst_rtsp_session_get_media` (lines 135-142) from `walk` on. -/
def get_media_walk (w : World) (abspath : String) : List Ptr → Except Fault (Option Ptr)
  | [] => Except.ok none
  | result :: walk =>
    match (w.medias result).url with
    | none => Except.error Fault.null_dereference
    | some u =>
      if strcmp (w.urls u).abspath abspath = 0 then Except.ok (some result)
      else get_media_walk w abspath walk

/-- `gst_rtsp_session_get_media` (lines 124-144).  A `sess` that fails
`GST_IS_RTSP_SESSION` and a `NULL` url are `none`. -/
def gst_rtsp_session_get_media (w : World) (sess : Option Ptr) (url : Option GstRTSPUrl) :
    Except Fault (Option Ptr) :=
  match sess with
  | none => Except.ok none
  | some sess =>
    match url with
    | none => Except.ok none
    | some url => get_media_walk w url.abspath (w.sessions sess).medias

/-- The loop of `gst_rtsp_session_media_get_stream` (lines 171-178) from `walk`
on. -/
def get_stream_walk (w : World) (media_stream : Ptr) : List Ptr → Option Ptr
  | [] => none
  | result :: walk =>
    if (w.streams result).media_stream = media_stream then some result
    else get_stream_walk w media_stream walk

/-- `gst_rtsp_session_media_get_stream` (lines 156-192). -/
def gst_rtsp_session_media_get_stream (E : Engine) (w : World) (media : Option Ptr)
    (idx : Nat) : World × Option Ptr :=
  match media with
  | none => (w, none)
  | some media =>
    match (w.medias media).media with
    | none => (w, none)
    | some m =>
      match E.gst_rtsp_media_get_stream m idx with
      | none => (w, none)
      | some media_stream =>
        match get_stream_walk w media_stream (w.medias media).streams with
        | some result => (w, some result)
        | none =>
          -- result = g_new0 (GstRTSPSessionStream, 1);
          let result := w.brk
          let w1 := { w with brk := w.brk + 1,
                             streams := Function.update w.streams result ⟨0, none⟩ }
          -- result->media_stream = media_stream;
          let w2 := { w1 with
            streams := Function.update w1.streams result
              { w1.streams result with media_stream := media_stream } }
          -- media->streams = g_list_prepend (media->streams, result);
          let w3 := { w2 with
            medias := Function.update w2.medias media
              { w2.medias media with streams := result :: (w2.medias media).streams } }
          (w3, some result)

/-- `gst_rtsp_session_new` (lines 199-208). -/
def gst_rtsp_session_new (w : World) (sessionid : Option String) : World × Ptr :=
  let result := w.brk
  let w1 := { w with brk := w.brk + 1,
                     sessions := Function.update w.sessions result ⟨none, []⟩ }
  let w2 := { w1 with
    sessions := Function.update w1.sessions result
      { w1.sessions result with sessionid := sessionid } }
  (w2, result)

/-- `gst_rtsp_session_stream_set_transport` (lines 220-243).  The new server
transport is handed to the caller, who owns it: the result carries its
contents. -/
def gst_rtsp_session_stream_set_transport (w : World) (stream : Ptr) (ct : Ptr) :
    World × GstRTSPTransport :=
  -- gst_rtsp_transport_new (&st);
  let st := gst_rtsp_transport_new
  let st := { st with trans := (w.transports ct).trans }
  let st := { st with profile := (w.transports ct).profile }
  let st := { st with lower_transport := (w.transports ct).lower_transport }
  let st := { st with client_port := (w.transports ct).client_port }
  -- if (stream->client_trans) gst_rtsp_transport_free (stream->client_trans);
  let w1 := match (w.streams stream).client_trans with
    | some old => gst_rtsp_transport_free w old
    | none => w
  -- stream->client_trans = ct;
  let w2 := { w1 with
    streams := Function.update w1.streams stream
      { w1.streams stream with client_trans := some ct } }
  let ms := w2.media_streams (w2.streams stream).media_stream
  let st := { st with server_port := { st.server_port with min := ms.server_port.min } }
  let st := { st with server_port := { st.server_port with max := ms.server_port.max } }
  (w2, st)

/-- `gst_rtsp_media_stream_add` of the media engine: recorded in the trace. -/
def gst_rtsp_media_stream_add (w : World) (media_stream : Ptr) (ct : Option Ptr) : World :=
  { w with trace := w.trace ++ [Call.gst_rtsp_media_stream_add media_stream ct] }

/-- The loop of `gst_rtsp_session_media_play` (lines 261-265) from `walk` on. -/
def play_walk (w : World) : List Ptr → World
  | [] => w
  | stream :: walk =>
    play_walk
      (gst_rtsp_media_stream_add w (w.streams stream).media_stream
        (w.streams stream).client_trans)
      walk

/-- `gst_rtsp_session_media_play` (lines 254-269). -/
def gst_rtsp_session_media_play (E : Engine) (w : World) (media : Ptr) :
    World × GstStateChangeReturn :=
  let w1 := play_walk w (w.medias media).streams
  let ret := E.gst_rtsp_media_play w1.trace (w1.medias media).media
  ({ w1 with trace := w1.trace ++ [Call.gst_rtsp_media_play (w1.medias media).media] }, ret)

/-- `gst_rtsp_session_media_pause` (lines 279-287). -/
def gst_rtsp_session_media_pause (E : Engine) (w : World) (media : Ptr) :
    World × GstStateChangeReturn :=
  let ret := E.gst_rtsp_media_pause w.trace (w.medias media).media
  ({ w with trace := w.trace ++ [Call.gst_rtsp_media_pause (w.medias media).media] }, ret)

/-- `gst_rtsp_session_media_stop` (lines 298-306). -/
def gst_rtsp_session_media_stop (E : Engine) (w : World) (media : Ptr) :
    World × GstStateChangeReturn :=
  let ret := E.gst_rtsp_media_stop w.trace (w.medias media).media
  ({ w with trace := w.trace ++ [Call.gst_rtsp_media_stop (w.medias media).media] }, ret)

/-- A world with zeroed memories, nothing allocated and an empty trace. -/
def World.zero : World :=
  { sessions := fun _ => ⟨none, []⟩
    medias := fun _ => ⟨none, none, []⟩
    streams := fun _ => ⟨0, none⟩
    urls := fun _ => ⟨0, 0, none, none, none, 0, "", none⟩
    transports := fun _ => gst_rtsp_transport_new
    media_streams := fun _ => ⟨⟨0, 0⟩⟩
    brk := 1
    trace := [] }

/-- The path of the url a session media carries, when it carries one. -/
def World.media_abspath (w : World) (media : Ptr) : Option String :=
  match (w.medias media).url with
  | none => none
  | some u => some (w.urls u).abspath

/-- The transport registration `gst_rtsp_session_media_play` makes for a
session stream, read in world `w`. -/
def World.registration (w : World) (stream : Ptr) : Call :=
  Call.gst_rtsp_media_stream_add (w.streams stream).media_stream (w.streams stream).client_trans

/-- The transport `t` has been released: `gst_rtsp_transport_free (t)` is in the
trace. -/
abbrev World.released (w : World) (t : Ptr) : Prop :=
  Call.gst_rtsp_transport_free t ∈ w.trace

/-- An engine whose media handles have two substreams each, at indices 0 and 1,
and whose state changes succeed. -/
def Engine.demo : Engine :=
  { gst_rtsp_media_get_stream := fun m idx => if idx < 2 then some (10 * m + idx) else none
    gst_rtsp_media_play := fun _ _ => GstStateChangeReturn.GST_STATE_CHANGE_SUCCESS
    gst_rtsp_media_pause := fun _ _ => GstStateChangeReturn.GST_STATE_CHANGE_SUCCESS
    gst_rtsp_media_stop := fun _ _ => GstStateChangeReturn.GST_STATE_CHANGE_SUCCESS }

/-- The url `rtsp://host:554/cam1`. -/
def cam1 : GstRTSPUrl :=
  ⟨0, 0, none, none, some "host", 554, "/cam1", none⟩

/-- The url `rtsp://host:554/cam2`. -/
def cam2 : GstRTSPUrl :=
  ⟨0, 0, none, none, some "host", 554, "/cam2", none⟩

/-- The world after `gst_rtsp_session_new ("S1")` (the session is at address 1)
and `gst_rtsp_session_manage_media` of `cam1` with media handle 7 (the session
media is at address 2). -/
def World.demo : World :=
  (gst_rtsp_session_manage_media (gst_rtsp_session_new World.zero (some "S1")).1 1 cam1
    (some 7)).1

/-- An operation a caller can issue on a session media: get-or-create the
stream at an index, set the transport of a session stream, play, pause, stop. -/
inductive MediaOp where
  | get_stream (idx : Nat)
  | set_transport (stream : Ptr) (ct : Ptr)
  | play
  | pause
  | stop
deriving DecidableEq, Repr

/-- The world after one operation on the session media `media`. -/
def MediaOp.apply (E : Engine) (media : Ptr) (w : World) : MediaOp → World
  | MediaOp.get_stream idx => (gst_rtsp_session_media_get_stream E w (some media) idx).1
  | MediaOp.set_transport stream ct => (gst_rtsp_session_stream_set_transport w stream ct).1
  | MediaOp.play => (gst_rtsp_session_media_play E w media).1
  | MediaOp.pause => (gst_rtsp_session_media_pause E w media).1
  | MediaOp.stop => (gst_rtsp_session_media_stop E w media).1

/-- The world after a sequence of operations on the session media `media`. -/
def MediaOp.run (E : Engine) (media : Ptr) (w : World) (ops : List MediaOp) : World :=
  ops.foldl (MediaOp.apply E media) w

/-- The substreams the session streams of `media` are bound to, in list order. -/
def World.bound_substreams (w : World) (media : Ptr) : List Ptr :=
  (w.medias media).streams.map (fun s => (w.streams s).media_stream)

/-- The url `rtsp://other:8554/cam1?x=1`: the path of `cam1`, everything else
different. -/
def cam1_elsewhere : GstRTSPUrl :=
  ⟨1, 1, some "user", some "pw", some "other", 8554, "/cam1", some "x=1"⟩

/-- A world with two client transports, at addresses 5 and 6, that agree on
`trans`, `profile`, `lower_transport` and `client_port` and differ in the
destination, the ttl, the interleaved channels and their server ports; stream
4 is bound to substream 70, whose reserved server ports are 6970-6971. -/
def World.two_clients : World :=
  { World.zero with
    transports := fun p =>
      if p = 5 then
        { gst_rtsp_transport_new with
          trans := 1, profile := 1, lower_transport := 1, client_port := ⟨5000, 5001⟩,
          destination := some "10.0.0.1", ttl := 5, interleaved := ⟨0, 1⟩,
          server_port := ⟨7000, 7001⟩ }
      else if p = 6 then
        { gst_rtsp_transport_new with
          trans := 1, profile := 1, lower_transport := 1, client_port := ⟨5000, 5001⟩,
          destination := some "10.0.0.2", ttl := 9, interleaved := ⟨2, 3⟩,
          server_port := ⟨8000, 8001⟩ }
      else gst_rtsp_transport_new
    streams := fun p => if p = 4 then ⟨70, none⟩ else ⟨0, none⟩
    media_streams := fun p => if p = 70 then ⟨⟨6970, 6971⟩⟩ else ⟨⟨0, 0⟩⟩ }

/-- Every session media listed in the session, and the url it carries, is an
allocated object: its address is below the allocation frontier. -/
abbrev World.session_allocated (w : World) (sess : Ptr) : Prop :=
  ∀ r ∈ (w.sessions sess).medias, r < w.brk ∧ ∀ u ∈ (w.medias r).url, u < w.brk

/-- The world after a sequence of `gst_rtsp_session_manage_media` calls on the
session `sess`, one per (url, media handle) pair, in list order. -/
def manage_medias (w : World) (sess : Ptr) (calls : List (GstRTSPUrl × Option Ptr)) : World :=
  calls.foldl (fun w c => (gst_rtsp_session_manage_media w sess c.1 c.2).1) w

/-- The number of session medias of the session whose url has the path
`abspath`. -/
def World.count_abspath (w : World) (sess : Ptr) (abspath : String) : Nat :=
  (w.sessions sess).medias.countP (fun r => decide (w.media_abspath r = some abspath))

/-- Modelled from the spec: the state machine of the media handle, that is
`gst_rtsp_media_play`, `gst_rtsp_media_pause` and `gst_rtsp_media_stop` of the
media engine, which this file only calls.  The spec says of it: "After a
successful stop, the media handle's own state machine is expected to forbid
further play/pause transitions (enforced by the external media handle, not by
this component)".  An engine does so when, once it has answered a stop request
on a handle with a status other than failure, it answers every later play and
pause request on that handle with failure. -/
def Engine.forbids_after_stop (E : Engine) : Prop :=
  ∀ (before after : List Call) (m : Option Ptr),
    E.gst_rtsp_media_stop before m ≠ GstStateChangeReturn.GST_STATE_CHANGE_FAILURE →
    E.gst_rtsp_media_play (before ++ Call.gst_rtsp_media_stop m :: after) m
      = GstStateChangeReturn.GST_STATE_CHANGE_FAILURE ∧
    E.gst_rtsp_media_pause (before ++ Call.gst_rtsp_media_stop m :: after) m
      = GstStateChangeReturn.GST_STATE_CHANGE_FAILURE

/-- An engine of that kind: a stop request always succeeds, and a play or pause
request on a handle fails exactly when a stop request on that handle is in the
trace. -/
def Engine.strict : Engine :=
  { gst_rtsp_media_get_stream := Engine.demo.gst_rtsp_media_get_stream
    gst_rtsp_media_play := fun trace m =>
      if Call.gst_rtsp_media_stop m ∈ trace then GstStateChangeReturn.GST_STATE_CHANGE_FAILURE
      else GstStateChangeReturn.GST_STATE_CHANGE_SUCCESS
    gst_rtsp_media_pause := fun trace m =>
      if Call.gst_rtsp_media_stop m ∈ trace then GstStateChangeReturn.GST_STATE_CHANGE_FAILURE
      else GstStateChangeReturn.GST_STATE_CHANGE_SUCCESS
    gst_rtsp_media_stop := fun _ _ => GstStateChangeReturn.GST_STATE_CHANGE_SUCCESS }

/-- What a transport negotiated for the stream `t` of a session media relies
on: the media has its handle, its listed streams are allocated, `t` is the
stream a lookup of the substream finds, and `t` stores the client transport. -/
def World.negotiated (w : World) (media m media_stream t ct : Ptr) : Prop :=
  (w.medias media).media = some m ∧
  (∀ s ∈ (w.medias media).streams, s < w.brk) ∧
  get_stream_walk w media_stream (w.medias media).streams = some t ∧
  (w.streams t).client_trans = some ct

/-- The world after `gst_rtsp_session_media_get_stream (media, idx)`, then
`gst_rtsp_session_stream_set_transport (t, ct)`, then the operations `ops` on
the session media. -/
def negotiate_then (E : Engine) (w : World) (media : Ptr) (idx : Nat) (t ct : Ptr)
    (ops : List MediaOp) : World :=
  MediaOp.run E media
    (gst_rtsp_session_stream_set_transport
      (gst_rtsp_session_media_get_stream E w (some media) idx).1 t ct).1 ops

/-- The world after `gst_rtsp_session_manage_media (sess, uri, m)` followed by
the operations `ops` on the session media it returns. -/
def managed_then (E : Engine) (w : World) (sess : Ptr) (uri : GstRTSPUrl) (m : Option Ptr)
    (ops : List MediaOp) : World :=
  MediaOp.run E (gst_rtsp_session_manage_media w sess uri m).2
    (gst_rtsp_session_manage_media w sess uri m).1 ops

/-- The calls `gst_rtsp_session_media_play` adds to the trace of `w`. -/
def play_calls (E : Engine) (w : World) (media : Ptr) : List Call :=
  (gst_rtsp_session_media_play E w media).1.trace.drop w.trace.length

/-- `gst_rtsp_session_free_stream` (lines 44-51); `media` is not used. -/
def gst_rtsp_session_free_stream (w : World) (stream : Ptr) (_media : Ptr) : World :=
  -- if (stream->client_trans) gst_rtsp_transport_free (stream->client_trans);
  let w1 := match (w.streams stream).client_trans with
    | some client_trans => gst_rtsp_transport_free w client_trans
    | none => w
  -- g_free (stream);
  { w1 with trace := w1.trace ++ [Call.g_free_stream stream] }

/-- `g_list_foreach (list, func, user_data)`: `func (data, user_data)` for every
element of the list, in order. -/
def g_list_foreach (func : World → Ptr → Ptr → World) (user_data : Ptr) (w : World) :
    List Ptr → World
  | [] => w
  | data :: list => g_list_foreach func user_data (func w data user_data) list

/-- `gst_rtsp_session_free_media` (lines 53-67); `session` is not used. -/
def gst_rtsp_session_free_media (w : World) (media : Ptr) (_session : Ptr) : World :=
  -- g_list_foreach (media->streams, (GFunc) gst_rtsp_session_free_stream, media);
  let w1 := g_list_foreach gst_rtsp_session_free_stream media w (w.medias media).streams
  -- g_list_free (media->streams);
  let w2 := { w1 with trace := w1.trace ++ [Call.g_list_free (w1.medias media).streams] }
  -- if (media->url) gst_rtsp_url_free (media->url);
  let w3 := match (w2.medias media).url with
    | some url => { w2 with trace := w2.trace ++ [Call.gst_rtsp_url_free url] }
    | none => w2
  -- if (media->media) g_object_unref (media->media);
  let w4 := match (w3.medias media).media with
    | some m => { w3 with trace := w3.trace ++ [Call.g_object_unref m] }
    | none => w3
  -- g_free (media);
  { w4 with trace := w4.trace ++ [Call.g_free_media media] }

/-- `gst_rtsp_session_finalize` (lines 69-85). -/
def gst_rtsp_session_finalize (w : World) (obj : Ptr) : World :=
  let session := obj
  -- g_list_foreach (session->medias, (GFunc) gst_rtsp_session_free_media, session);
  let w1 := g_list_foreach gst_rtsp_session_free_media session w (w.sessions session).medias
  -- g_list_free (session->medias);
  let w2 := { w1 with trace := w1.trace ++ [Call.g_list_free (w1.sessions session).medias] }
  -- g_free (session->sessionid);
  let w3 := { w2 with trace := w2.trace ++ [Call.g_free_sessionid session] }
  -- G_OBJECT_CLASS (gst_rtsp_session_parent_class)->finalize (obj);
  { w3 with trace := w3.trace ++ [Call.parent_finalize obj] }

/-- The calls `gst_rtsp_session_finalize` adds to the trace of `w`. -/
def finalize_calls (w : World) (sess : Ptr) : List Call :=
  (gst_rtsp_session_finalize w sess).trace.drop w.trace.length

/-- The session streams the session holds: those listed by its session medias,
media after media. -/
def World.session_streams (w : World) (sess : Ptr) : List Ptr :=
  (w.sessions sess).medias.flatMap (fun media => (w.medias media).streams)

/-- The client transports stored by the session streams of the session. -/
def World.session_transports (w : World) (sess : Ptr) : List Ptr :=
  (w.session_streams sess).filterMap (fun stream => (w.streams stream).client_trans)

/-- The url copies carried by the session medias of the session. -/
def World.session_urls (w : World) (sess : Ptr) : List Ptr :=
  (w.sessions sess).medias.filterMap (fun media => (w.medias media).url)

/-- The media handle references held by the session medias of the session. -/
def World.session_handles (w : World) (sess : Ptr) : List Ptr :=
  (w.sessions sess).medias.filterMap (fun media => (w.medias media).media)

/-- The calls that release a session stream: its client transport, when it
stores one, then the stream. -/
def World.stream_releases (w : World) (stream : Ptr) : List Call :=
  (match (w.streams stream).client_trans with
    | some client_trans => [Call.gst_rtsp_transport_free client_trans]
    | none => [])
  ++ [Call.g_free_stream stream]

/-- The calls that release a session media: its streams, the stream list, the
url and the handle when there is one, then the session media. -/
def World.media_releases (w : World) (media : Ptr) : List Call :=
  (w.medias media).streams.flatMap w.stream_releases
  ++ [Call.g_list_free (w.medias media).streams]
  ++ (match (w.medias media).url with
    | some url => [Call.gst_rtsp_url_free url]
    | none => [])
  ++ (match (w.medias media).media with
    | some m => [Call.g_object_unref m]
    | none => [])
  ++ [Call.g_free_media media]

/-- The demo session after a lookup at index 0 (stream 4), client transport 20
set on that stream, and a lookup at index 1 (stream 5, no transport). -/
def World.demo_streams : World :=
  negotiate_then Engine.demo World.demo 2 0 4 20 [MediaOp.get_stream 1]

/-! ## Theorems -/

theorem strcmp_walk_eq_zero_iff (s1 s2 : List Char) : strcmp_walk s1 s2 = 0 ↔ s1 = s2 := by
  induction s1 generalizing s2 with
  | nil => cases s2 <;> simp [strcmp_walk]
  | cons c1 s1 ih =>
    cases s2 with
    | nil => simp [strcmp_walk]
    | cons c2 s2 =>
      by_cases hc : c1 = c2
      · simp [strcmp_walk, hc, ih]
      · by_cases hlt : c1.toNat < c2.toNat <;> simp [strcmp_walk, hc, hlt]

theorem strcmp_eq_zero_iff (s1 s2 : String) : strcmp s1 s2 = 0 ↔ s1 = s2 := by
  unfold strcmp
  rw [strcmp_walk_eq_zero_iff]
  exact ⟨String.ext, fun h => by rw [h]⟩

/-- C1: the server transport returned by `gst_rtsp_session_stream_set_transport`
has the transport tag, profile, lower transport and client port range of the
client transport `ct`, and the server port range (min and max) reserved for the
substream the stream is bound to, whatever the ports of `ct` are.  The function
is total: it has no failure result. -/
theorem set_transport_server_descriptor (w : World) (stream ct : Ptr) :
    (gst_rtsp_session_stream_set_transport w stream ct).2.trans = (w.transports ct).trans ∧
    (gst_rtsp_session_stream_set_transport w stream ct).2.profile = (w.transports ct).profile ∧
    (gst_rtsp_session_stream_set_transport w stream ct).2.lower_transport
      = (w.transports ct).lower_transport ∧
    (gst_rtsp_session_stream_set_transport w stream ct).2.client_port
      = (w.transports ct).client_port ∧
    (gst_rtsp_session_stream_set_transport w stream ct).2.server_port.min
      = (w.media_streams (w.streams stream).media_stream).server_port.min ∧
    (gst_rtsp_session_stream_set_transport w stream ct).2.server_port.max
      = (w.media_streams (w.streams stream).media_stream).server_port.max ∧
    (gst_rtsp_session_stream_set_transport w stream ct).2.server_port
      = (w.media_streams (w.streams stream).media_stream).server_port := by
  refine ⟨rfl, rfl, rfl, rfl, ?_, ?_, ?_⟩ <;>
    cases h : (w.streams stream).client_trans <;>
      simp [gst_rtsp_session_stream_set_transport, h, gst_rtsp_transport_free]

/-- C2: `gst_rtsp_session_get_media` on the session after
`gst_rtsp_session_manage_media (sess, uri, media)`, asked for `uri`, returns
exactly the session media that the latter returned; that entry wraps `media`
and carries a url equal to `uri`, in particular with the same path. -/
theorem get_media_after_manage_media (w : World) (sess : Ptr) (uri : GstRTSPUrl)
    (media : Option Ptr) :
    gst_rtsp_session_get_media (gst_rtsp_session_manage_media w sess uri media).1
        (some sess) (some uri)
      = Except.ok (some (gst_rtsp_session_manage_media w sess uri media).2) ∧
    ((gst_rtsp_session_manage_media w sess uri media).1.medias
        (gst_rtsp_session_manage_media w sess uri media).2).media = media ∧
    (∃ u, ((gst_rtsp_session_manage_media w sess uri media).1.medias
        (gst_rtsp_session_manage_media w sess uri media).2).url = some u ∧
      (gst_rtsp_session_manage_media w sess uri media).1.urls u = uri) ∧
    (gst_rtsp_session_manage_media w sess uri media).1.media_abspath
        (gst_rtsp_session_manage_media w sess uri media).2 = some uri.abspath := by
  have hs : strcmp uri.abspath uri.abspath = 0 := (strcmp_eq_zero_iff _ _).2 rfl
  refine ⟨?_, ?_, ?_, ?_⟩
  · simp [gst_rtsp_session_get_media, gst_rtsp_session_manage_media, gst_rtsp_url_copy,
      get_media_walk, hs]
  · simp [gst_rtsp_session_manage_media, gst_rtsp_url_copy]
  · simp [gst_rtsp_session_manage_media, gst_rtsp_url_copy]
  · simp [World.media_abspath, gst_rtsp_session_manage_media, gst_rtsp_url_copy]

theorem get_stream_walk_some (w : World) (media_stream : Ptr) (walk : List Ptr) (t : Ptr)
    (h : get_stream_walk w media_stream walk = some t) :
    t ∈ walk ∧ (w.streams t).media_stream = media_stream := by
  induction walk with
  | nil => simp [get_stream_walk] at h
  | cons r walk ih =>
    by_cases hr : (w.streams r).media_stream = media_stream
    · simp [get_stream_walk, hr] at h
      subst h
      exact ⟨List.mem_cons_self _ _, hr⟩
    · simp [get_stream_walk, hr] at h
      exact ⟨List.mem_cons_of_mem _ (ih h).1, (ih h).2⟩

theorem get_stream_walk_none (w : World) (media_stream : Ptr) (walk : List Ptr)
    (h : get_stream_walk w media_stream walk = none) :
    ∀ t ∈ walk, (w.streams t).media_stream ≠ media_stream := by
  induction walk with
  | nil => simp
  | cons r walk ih =>
    by_cases hr : (w.streams r).media_stream = media_stream
    · simp [get_stream_walk, hr] at h
    · simp [get_stream_walk, hr] at h
      intro t ht
      rcases List.mem_cons.1 ht with rfl | ht
      · exact hr
      · exact ih h t ht

/-- C3: when the media handle has a substream at `idx`, a second
`gst_rtsp_session_media_get_stream (media, idx)` issued right after the first
returns the same session stream (the same address) as the first and leaves the
world, and so the stream list of the session media, exactly as the first call
left it. -/
theorem get_stream_idempotent (E : Engine) (w : World) (media m media_stream : Ptr)
    (idx : Nat) (hm : (w.medias media).media = some m)
    (hs : E.gst_rtsp_media_get_stream m idx = some media_stream) :
    ∃ t, (gst_rtsp_session_media_get_stream E w (some media) idx).2 = some t ∧
      (gst_rtsp_session_media_get_stream E
          (gst_rtsp_session_media_get_stream E w (some media) idx).1 (some media) idx).2
        = some t ∧
      (gst_rtsp_session_media_get_stream E
          (gst_rtsp_session_media_get_stream E w (some media) idx).1 (some media) idx).1
        = (gst_rtsp_session_media_get_stream E w (some media) idx).1 ∧
      ((gst_rtsp_session_media_get_stream E
          (gst_rtsp_session_media_get_stream E w (some media) idx).1 (some media) idx).1.medias
            media).streams
        = ((gst_rtsp_session_media_get_stream E w (some media) idx).1.medias media).streams := by
  cases hwalk : get_stream_walk w media_stream (w.medias media).streams with
  | some t =>
    refine ⟨t, ?_, ?_, ?_, ?_⟩ <;>
      simp [gst_rtsp_session_media_get_stream, hm, hs, hwalk]
  | none =>
    refine ⟨w.brk, ?_, ?_, ?_, ?_⟩ <;>
      simp [gst_rtsp_session_media_get_stream, hm, hs, hwalk, get_stream_walk]

/-- C4: for a session media whose handle is `m`: when the handle reports no
substream at `idx`, `gst_rtsp_session_media_get_stream` returns not-found and
the world (so the stream list) is unchanged; when it reports the substream
`media_stream`, the function returns a stream of the session media that is
bound to exactly that substream, never not-found. -/
theorem get_stream_not_found_iff_no_substream (E : Engine) (w : World) (media m : Ptr)
    (idx : Nat) (hm : (w.medias media).media = some m) :
    (E.gst_rtsp_media_get_stream m idx = none →
      gst_rtsp_session_media_get_stream E w (some media) idx = (w, none)) ∧
    (∀ media_stream, E.gst_rtsp_media_get_stream m idx = some media_stream →
      ∃ t, (gst_rtsp_session_media_get_stream E w (some media) idx).2 = some t ∧
        ((gst_rtsp_session_media_get_stream E w (some media) idx).1.streams t).media_stream
          = media_stream ∧
        t ∈ ((gst_rtsp_session_media_get_stream E w (some media) idx).1.medias media).streams) := by
  constructor
  · intro hs
    simp [gst_rtsp_session_media_get_stream, hm, hs]
  · intro media_stream hs
    cases hwalk : get_stream_walk w media_stream (w.medias media).streams with
    | some t =>
      have ht := get_stream_walk_some w media_stream _ t hwalk
      refine ⟨t, ?_, ?_, ?_⟩ <;>
        simp [gst_rtsp_session_media_get_stream, hm, hs, hwalk, ht.1, ht.2]
    | none =>
      refine ⟨w.brk, ?_, ?_, ?_⟩ <;>
        simp [gst_rtsp_session_media_get_stream, hm, hs, hwalk]

theorem play_walk_eq (w : World) (walk : List Ptr) :
    play_walk w walk = { w with trace := w.trace ++ walk.map w.registration } := by
  induction walk generalizing w with
  | nil => simp [play_walk]
  | cons stream walk ih =>
    rw [play_walk, ih]
    simp [gst_rtsp_media_stream_add, World.registration]

/-- C5: `gst_rtsp_session_media_play` on a session media with N session streams
makes exactly N `gst_rtsp_media_stream_add` calls, one per stream in list order,
each with that stream's substream and its currently stored client transport,
all of them before the single `gst_rtsp_media_play` call on the media handle,
and nothing else; it returns the status the engine gives for that call; the
world it leaves is the same for every engine, so the registrations stay
whatever the status is. -/
theorem play_registers_every_stream (E : Engine) (w : World) (media : Ptr) :
    (gst_rtsp_session_media_play E w media).1
      = { w with trace := w.trace ++ (w.medias media).streams.map w.registration
                    ++ [Call.gst_rtsp_media_play (w.medias media).media] } ∧
    ((w.medias media).streams.map w.registration).length = (w.medias media).streams.length ∧
    (gst_rtsp_session_media_play E w media).2
      = E.gst_rtsp_media_play (w.trace ++ (w.medias media).streams.map w.registration)
          (w.medias media).media ∧
    (∀ E2 : Engine, (gst_rtsp_session_media_play E2 w media).1
      = (gst_rtsp_session_media_play E w media).1) := by
  refine ⟨?_, ?_, ?_, ?_⟩
  · simp [gst_rtsp_session_media_play, play_walk_eq]
  · simp
  · simp [gst_rtsp_session_media_play, play_walk_eq]
  · intro E2
    simp [gst_rtsp_session_media_play, play_walk_eq]

/-- Witness of `get_stream_idempotent`: the demo session media (address 2,
handle 7) and index 0, which the demo engine resolves to substream 70. -/
theorem get_stream_idempotent_witness :
    (World.demo.medias 2).media = some 7 ∧
    Engine.demo.gst_rtsp_media_get_stream 7 0 = some 70 ∧
    ∃ t, (gst_rtsp_session_media_get_stream Engine.demo World.demo (some 2) 0).2 = some t ∧
      (gst_rtsp_session_media_get_stream Engine.demo
          (gst_rtsp_session_media_get_stream Engine.demo World.demo (some 2) 0).1 (some 2) 0).2
        = some t ∧
      (gst_rtsp_session_media_get_stream Engine.demo
          (gst_rtsp_session_media_get_stream Engine.demo World.demo (some 2) 0).1 (some 2) 0).1
        = (gst_rtsp_session_media_get_stream Engine.demo World.demo (some 2) 0).1 ∧
      ((gst_rtsp_session_media_get_stream Engine.demo
          (gst_rtsp_session_media_get_stream Engine.demo World.demo (some 2) 0).1
            (some 2) 0).1.medias 2).streams
        = ((gst_rtsp_session_media_get_stream Engine.demo World.demo (some 2) 0).1.medias
            2).streams :=
  ⟨by decide, by decide,
    get_stream_idempotent Engine.demo World.demo 2 7 70 0 (by decide) (by decide)⟩

/-- Witness of `get_stream_not_found_iff_no_substream`: on the demo session
media, index 5 has no substream and index 0 has substream 70. -/
theorem get_stream_not_found_iff_no_substream_witness :
    (World.demo.medias 2).media = some 7 ∧
    gst_rtsp_session_media_get_stream Engine.demo World.demo (some 2) 5 = (World.demo, none) ∧
    ∃ t, (gst_rtsp_session_media_get_stream Engine.demo World.demo (some 2) 0).2 = some t ∧
      ((gst_rtsp_session_media_get_stream Engine.demo World.demo (some 2) 0).1.streams
          t).media_stream = 70 ∧
      t ∈ ((gst_rtsp_session_media_get_stream Engine.demo World.demo (some 2) 0).1.medias
          2).streams :=
  ⟨by decide,
    (get_stream_not_found_iff_no_substream Engine.demo World.demo 2 7 5 (by decide)).1
      (by decide),
    (get_stream_not_found_iff_no_substream Engine.demo World.demo 2 7 0 (by decide)).2 70
      (by decide)⟩

/-- C6: for two distinct client transports `c1` and `c2`, the second of which
is not released when it is passed, after
`gst_rtsp_session_stream_set_transport (stream, c1)` followed by
`gst_rtsp_session_stream_set_transport (stream, c2)`: the second call releases
`c1` once and nothing else, the stream stores `c2`, and `c2` is not a released
transport. -/
theorem set_transport_twice_releases_first (w : World) (stream c1 c2 : Ptr)
    (h12 : c1 ≠ c2)
    (hlive : ¬ (gst_rtsp_session_stream_set_transport w stream c1).1.released c2) :
    (gst_rtsp_session_stream_set_transport
        (gst_rtsp_session_stream_set_transport w stream c1).1 stream c2).1.trace
      = (gst_rtsp_session_stream_set_transport w stream c1).1.trace
          ++ [Call.gst_rtsp_transport_free c1] ∧
    ((gst_rtsp_session_stream_set_transport
        (gst_rtsp_session_stream_set_transport w stream c1).1 stream c2).1.streams
          stream).client_trans = some c2 ∧
    ¬ (gst_rtsp_session_stream_set_transport
        (gst_rtsp_session_stream_set_transport w stream c1).1 stream c2).1.released c2 := by
  have h1 : ((gst_rtsp_session_stream_set_transport w stream c1).1.streams stream).client_trans
      = some c1 := by
    simp [gst_rtsp_session_stream_set_transport]
  have ht : (gst_rtsp_session_stream_set_transport
        (gst_rtsp_session_stream_set_transport w stream c1).1 stream c2).1.trace
      = (gst_rtsp_session_stream_set_transport w stream c1).1.trace
          ++ [Call.gst_rtsp_transport_free c1] := by
    generalize (gst_rtsp_session_stream_set_transport w stream c1).1 = w1 at h1
    simp [gst_rtsp_session_stream_set_transport, h1, gst_rtsp_transport_free]
  refine ⟨ht, ?_, ?_⟩
  · simp [gst_rtsp_session_stream_set_transport]
  · unfold World.released at hlive ⊢
    rw [ht, List.mem_append]
    rintro (h | h)
    · exact hlive h
    · simp at h
      exact h12 h.symm

/-- Witness of `set_transport_twice_releases_first`: stream 4 of the zero world
and the client transports 5 and 6. -/
theorem set_transport_twice_releases_first_witness :
    (5 : Ptr) ≠ 6 ∧
    ¬ (gst_rtsp_session_stream_set_transport World.zero 4 5).1.released 6 ∧
    (gst_rtsp_session_stream_set_transport
        (gst_rtsp_session_stream_set_transport World.zero 4 5).1 4 6).1.trace
      = (gst_rtsp_session_stream_set_transport World.zero 4 5).1.trace
          ++ [Call.gst_rtsp_transport_free 5] ∧
    ((gst_rtsp_session_stream_set_transport
        (gst_rtsp_session_stream_set_transport World.zero 4 5).1 4 6).1.streams
          4).client_trans = some 6 ∧
    ¬ (gst_rtsp_session_stream_set_transport
        (gst_rtsp_session_stream_set_transport World.zero 4 5).1 4 6).1.released 6 :=
  ⟨by decide, by decide,
    set_transport_twice_releases_first World.zero 4 5 6 (by decide) (by decide)⟩

theorem get_media_walk_spec (w : World) (abspath : String) (walk : List Ptr)
    (hurl : ∀ r ∈ walk, (w.medias r).url ≠ none) :
    (get_media_walk w abspath walk = Except.ok none ∧
      ∀ r ∈ walk, w.media_abspath r ≠ some abspath) ∨
    (∃ r before after, get_media_walk w abspath walk = Except.ok (some r) ∧
      w.media_abspath r = some abspath ∧ walk = before ++ r :: after ∧
      ∀ x ∈ before, w.media_abspath x ≠ some abspath) := by
  induction walk with
  | nil => left; simp [get_media_walk]
  | cons result walk ih =>
    have hres := hurl result (List.mem_cons_self _ _)
    have ih := ih (fun r hr => hurl r (List.mem_cons_of_mem _ hr))
    cases hu : (w.medias result).url with
    | none => exact absurd hu hres
    | some u =>
      by_cases hcmp : strcmp (w.urls u).abspath abspath = 0
      · right
        refine ⟨result, [], walk, ?_, ?_, rfl, ?_⟩
        · simp [get_media_walk, hu, hcmp]
        · simp [World.media_abspath, hu, (strcmp_eq_zero_iff _ _).1 hcmp]
        · simp
      · have hne : w.media_abspath result ≠ some abspath := by
          simp only [World.media_abspath, hu]
          intro h
          exact hcmp ((strcmp_eq_zero_iff _ _).2 (Option.some.inj h))
        have hstep : get_media_walk w abspath (result :: walk) = get_media_walk w abspath walk := by
          simp [get_media_walk, hu, hcmp]
        rcases ih with ⟨h0, hall⟩ | ⟨r, before, after, h0, hp, hsplit, hbefore⟩
        · left
          refine ⟨by rw [hstep, h0], ?_⟩
          intro r hr
          rcases List.mem_cons.1 hr with rfl | hr
          · exact hne
          · exact hall r hr
        · right
          refine ⟨r, result :: before, after, by rw [hstep, h0], hp, by rw [hsplit]; rfl, ?_⟩
          intro x hx
          rcases List.mem_cons.1 hx with rfl | hx
          · exact hne
          · exact hbefore x hx

/-- C7: for a session all of whose session medias carry a url,
`gst_rtsp_session_get_media (sess, url)` returns a result (it does not fault);
the result is not-found if and only if no session media of the session has a
url path equal to the path of `url`; and when it is an entry, that entry's url
path equals the path of `url` and no entry before it in the session's list has
that path: it is the first match. -/
theorem get_media_first_match (w : World) (sess : Ptr) (url : GstRTSPUrl)
    (hurl : ∀ r ∈ (w.sessions sess).medias, (w.medias r).url ≠ none) :
    (∃ res, gst_rtsp_session_get_media w (some sess) (some url) = Except.ok res) ∧
    (gst_rtsp_session_get_media w (some sess) (some url) = Except.ok none ↔
      ∀ r ∈ (w.sessions sess).medias, w.media_abspath r ≠ some url.abspath) ∧
    (∀ r, gst_rtsp_session_get_media w (some sess) (some url) = Except.ok (some r) →
      w.media_abspath r = some url.abspath ∧
      ∃ before after, (w.sessions sess).medias = before ++ r :: after ∧
        ∀ x ∈ before, w.media_abspath x ≠ some url.abspath) := by
  have hget : gst_rtsp_session_get_media w (some sess) (some url)
      = get_media_walk w url.abspath (w.sessions sess).medias := rfl
  rw [hget]
  rcases get_media_walk_spec w url.abspath _ hurl with
    ⟨h0, hall⟩ | ⟨r, before, after, h0, hp, hsplit, hbefore⟩
  · refine ⟨⟨none, h0⟩, ⟨fun _ => hall, fun _ => h0⟩, ?_⟩
    intro r hr
    rw [h0] at hr
    cases hr
  · refine ⟨⟨some r, h0⟩, ⟨?_, ?_⟩, ?_⟩
    · intro hn
      rw [h0] at hn
      cases hn
    · intro hall
      refine absurd hp (hall r ?_)
      rw [hsplit]
      simp
    · intro r2 hr2
      rw [h0] at hr2
      cases hr2
      exact ⟨hp, before, after, hsplit, hbefore⟩

/-- Witness of `get_media_first_match`: the demo session (address 1), whose one
session media carries the url `cam1`, asked for `cam1`. -/
theorem get_media_first_match_witness :
    (∀ r ∈ (World.demo.sessions 1).medias, (World.demo.medias r).url ≠ none) ∧
    (∃ res, gst_rtsp_session_get_media World.demo (some 1) (some cam1) = Except.ok res) ∧
    (gst_rtsp_session_get_media World.demo (some 1) (some cam1) = Except.ok none ↔
      ∀ r ∈ (World.demo.sessions 1).medias, World.demo.media_abspath r ≠ some cam1.abspath) ∧
    (∀ r, gst_rtsp_session_get_media World.demo (some 1) (some cam1) = Except.ok (some r) →
      World.demo.media_abspath r = some cam1.abspath ∧
      ∃ before after, (World.demo.sessions 1).medias = before ++ r :: after ∧
        ∀ x ∈ before, World.demo.media_abspath x ≠ some cam1.abspath) :=
  ⟨by decide, get_media_first_match World.demo 1 cam1 (by decide)⟩

/-- C8: after `gst_rtsp_session_manage_media (sess, uri, m1)` and then
`gst_rtsp_session_manage_media (sess, uri, m2)` the session lists two session
medias at different addresses in front of its earlier ones, the first created
wrapping `m1` and the second `m2`, both carrying the path of `uri`; and
`gst_rtsp_session_get_media (sess, uri)` returns the one created by the second
call, not the first. -/
theorem manage_media_twice_shadows_first (w : World) (sess : Ptr) (uri : GstRTSPUrl)
    (m1 m2 : Option Ptr) :
    (gst_rtsp_session_manage_media w sess uri m1).2
      ≠ (gst_rtsp_session_manage_media
          (gst_rtsp_session_manage_media w sess uri m1).1 sess uri m2).2 ∧
    ((gst_rtsp_session_manage_media
        (gst_rtsp_session_manage_media w sess uri m1).1 sess uri m2).1.sessions sess).medias
      = (gst_rtsp_session_manage_media
          (gst_rtsp_session_manage_media w sess uri m1).1 sess uri m2).2
        :: (gst_rtsp_session_manage_media w sess uri m1).2 :: (w.sessions sess).medias ∧
    ((gst_rtsp_session_manage_media
        (gst_rtsp_session_manage_media w sess uri m1).1 sess uri m2).1.medias
          (gst_rtsp_session_manage_media w sess uri m1).2).media = m1 ∧
    ((gst_rtsp_session_manage_media
        (gst_rtsp_session_manage_media w sess uri m1).1 sess uri m2).1.medias
          (gst_rtsp_session_manage_media
            (gst_rtsp_session_manage_media w sess uri m1).1 sess uri m2).2).media = m2 ∧
    (gst_rtsp_session_manage_media
        (gst_rtsp_session_manage_media w sess uri m1).1 sess uri m2).1.media_abspath
          (gst_rtsp_session_manage_media w sess uri m1).2 = some uri.abspath ∧
    (gst_rtsp_session_manage_media
        (gst_rtsp_session_manage_media w sess uri m1).1 sess uri m2).1.media_abspath
          (gst_rtsp_session_manage_media
            (gst_rtsp_session_manage_media w sess uri m1).1 sess uri m2).2
      = some uri.abspath ∧
    gst_rtsp_session_get_media
        (gst_rtsp_session_manage_media
          (gst_rtsp_session_manage_media w sess uri m1).1 sess uri m2).1 (some sess) (some uri)
      = Except.ok (some (gst_rtsp_session_manage_media
          (gst_rtsp_session_manage_media w sess uri m1).1 sess uri m2).2) ∧
    gst_rtsp_session_get_media
        (gst_rtsp_session_manage_media
          (gst_rtsp_session_manage_media w sess uri m1).1 sess uri m2).1 (some sess) (some uri)
      ≠ Except.ok (some (gst_rtsp_session_manage_media w sess uri m1).2) := by
  have hs : strcmp uri.abspath uri.abspath = 0 := (strcmp_eq_zero_iff _ _).2 rfl
  have hb1 : ¬ w.brk = w.brk + 1 + 1 :=
    Nat.ne_of_lt (Nat.lt_succ_of_lt (Nat.lt_succ_self _))
  have hb2 : ¬ w.brk + 1 + 1 = w.brk := fun h => hb1 h.symm
  refine ⟨?_, ?_, ?_, ?_, ?_, ?_, ?_, ?_⟩ <;>
    simp [gst_rtsp_session_get_media, gst_rtsp_session_manage_media, gst_rtsp_url_copy,
      get_media_walk, World.media_abspath, hs, Function.update, hb1, hb2]

/-- C10: `gst_rtsp_session_get_media` compares the path only: for two urls with
equal paths, whatever their other fields, it returns the same result on every
session; and an entry attached with `gst_rtsp_session_manage_media` under a url
is returned for every query url with the same path. -/
theorem get_media_depends_on_path_only (w : World) (sess : Option Ptr) (u1 u2 : GstRTSPUrl)
    (hpath : u1.abspath = u2.abspath) :
    gst_rtsp_session_get_media w sess (some u1) = gst_rtsp_session_get_media w sess (some u2) ∧
    (∀ (s : Ptr) (media : Option Ptr),
      gst_rtsp_session_get_media (gst_rtsp_session_manage_media w s u1 media).1
          (some s) (some u2)
        = Except.ok (some (gst_rtsp_session_manage_media w s u1 media).2)) := by
  constructor
  · cases sess with
    | none => rfl
    | some s => simp [gst_rtsp_session_get_media, hpath]
  · intro s media
    have hs : strcmp u1.abspath u2.abspath = 0 := (strcmp_eq_zero_iff _ _).2 hpath
    simp [gst_rtsp_session_get_media, gst_rtsp_session_manage_media, gst_rtsp_url_copy,
      get_media_walk, hs]

/-- Witness of `get_media_depends_on_path_only`: `cam1` and a url with the same
path and a different host, port, user and query. -/
theorem get_media_depends_on_path_only_witness :
    cam1.abspath = cam1_elsewhere.abspath ∧
    gst_rtsp_session_get_media World.demo (some 1) (some cam1)
      = gst_rtsp_session_get_media World.demo (some 1) (some cam1_elsewhere) ∧
    (∀ (s : Ptr) (media : Option Ptr),
      gst_rtsp_session_get_media (gst_rtsp_session_manage_media World.demo s cam1 media).1
          (some s) (some cam1_elsewhere)
        = Except.ok (some (gst_rtsp_session_manage_media World.demo s cam1 media).2)) :=
  ⟨by decide, get_media_depends_on_path_only World.demo (some 1) cam1 cam1_elsewhere (by decide)⟩

/-- The world after `gst_rtsp_session_media_get_stream`: unchanged, or with one
new session stream, bound to a substream no listed stream was bound to, at the
front of the list. -/
theorem get_stream_world (E : Engine) (w : World) (media : Ptr) (idx : Nat) :
    (gst_rtsp_session_media_get_stream E w (some media) idx).1 = w ∨
    ∃ media_stream, get_stream_walk w media_stream (w.medias media).streams = none ∧
      (gst_rtsp_session_media_get_stream E w (some media) idx).1
        = { w with
            brk := w.brk + 1
            streams := Function.update w.streams w.brk ⟨media_stream, none⟩
            medias := Function.update w.medias media
              { w.medias media with streams := w.brk :: (w.medias media).streams } } := by
  cases hm : (w.medias media).media with
  | none => left; simp [gst_rtsp_session_media_get_stream, hm]
  | some m =>
    cases hs : E.gst_rtsp_media_get_stream m idx with
    | none => left; simp [gst_rtsp_session_media_get_stream, hm, hs]
    | some media_stream =>
      cases hwalk : get_stream_walk w media_stream (w.medias media).streams with
      | some t => left; simp [gst_rtsp_session_media_get_stream, hm, hs, hwalk]
      | none =>
        right
        refine ⟨media_stream, hwalk, ?_⟩
        simp [gst_rtsp_session_media_get_stream, hm, hs, hwalk]

/-- The invariant kept by every operation on a session media: its session
streams are allocated and are bound to pairwise different substreams. -/
theorem MediaOp.apply_invariant (E : Engine) (media : Ptr) (w : World) (op : MediaOp)
    (halloc : ∀ s ∈ (w.medias media).streams, s < w.brk)
    (hnodup : (w.bound_substreams media).Nodup) :
    (∀ s ∈ ((MediaOp.apply E media w op).medias media).streams,
      s < (MediaOp.apply E media w op).brk) ∧
    ((MediaOp.apply E media w op).bound_substreams media).Nodup := by
  cases op with
  | get_stream idx =>
    rcases get_stream_world E w media idx with h | ⟨media_stream, hwalk, h⟩
    · simp only [MediaOp.apply, h]
      exact ⟨halloc, hnodup⟩
    · have hfresh := get_stream_walk_none w media_stream _ hwalk
      have hmap : List.map
          (fun s => (Function.update w.streams w.brk
            (⟨media_stream, none⟩ : GstRTSPSessionStream) s).media_stream)
            (w.medias media).streams
          = List.map (fun s => (w.streams s).media_stream) (w.medias media).streams := by
        apply List.map_congr_left
        intro s hs
        have hne : s ≠ w.brk := Nat.ne_of_lt (halloc s hs)
        simp [Function.update, hne]
      simp only [MediaOp.apply, h]
      constructor
      · intro s hs
        simp only [Function.update_same, List.mem_cons] at hs
        rcases hs with rfl | hs
        · exact Nat.lt_succ_self _
        · exact Nat.lt_succ_of_lt (halloc s hs)
      · simp only [World.bound_substreams] at hnodup ⊢
        simp only [Function.update_same, List.map_cons, hmap]
        refine List.nodup_cons.2 ⟨?_, hnodup⟩
        intro hmem
        rcases List.mem_map.1 hmem with ⟨s, hs, heq⟩
        exact hfresh s hs heq
  | set_transport stream ct =>
    have hsame : ∀ s, (((gst_rtsp_session_stream_set_transport w stream ct).1).streams
        s).media_stream = (w.streams s).media_stream := by
      intro s
      by_cases hst : s = stream
      · subst hst
        cases h : (w.streams s).client_trans <;>
          simp [gst_rtsp_session_stream_set_transport, h, gst_rtsp_transport_free]
      · cases h : (w.streams stream).client_trans <;>
          simp [gst_rtsp_session_stream_set_transport, h, gst_rtsp_transport_free,
            Function.update, hst]
    have hmed : (gst_rtsp_session_stream_set_transport w stream ct).1.medias = w.medias := by
      cases h : (w.streams stream).client_trans <;>
        simp [gst_rtsp_session_stream_set_transport, h, gst_rtsp_transport_free]
    have hbrk : (gst_rtsp_session_stream_set_transport w stream ct).1.brk = w.brk := by
      cases h : (w.streams stream).client_trans <;>
        simp [gst_rtsp_session_stream_set_transport, h, gst_rtsp_transport_free]
    simp only [MediaOp.apply, World.bound_substreams, hmed, hbrk, hsame]
    exact ⟨halloc, hnodup⟩
  | play =>
    simp only [MediaOp.apply, World.bound_substreams, gst_rtsp_session_media_play,
      play_walk_eq]
    exact ⟨halloc, hnodup⟩
  | pause => exact ⟨halloc, hnodup⟩
  | stop => exact ⟨halloc, hnodup⟩

theorem MediaOp.run_invariant (E : Engine) (media : Ptr) (ops : List MediaOp) (w : World)
    (halloc : ∀ s ∈ (w.medias media).streams, s < w.brk)
    (hnodup : (w.bound_substreams media).Nodup) :
    ((MediaOp.run E media w ops).bound_substreams media).Nodup := by
  induction ops generalizing w with
  | nil => exact hnodup
  | cons op ops ih =>
    have h := MediaOp.apply_invariant E media w op halloc hnodup
    exact ih (MediaOp.apply E media w op) h.1 h.2

theorem countP_le_one_of_nodup_map {α β : Type} [DecidableEq β] (f : α → β) (b : β)
    (l : List α) (h : (l.map f).Nodup) : l.countP (fun a => decide (f a = b)) ≤ 1 := by
  induction l with
  | nil => simp
  | cons a l ih =>
    rw [List.map_cons, List.nodup_cons] at h
    by_cases hab : f a = b
    · have hzero : l.countP (fun x => decide (f x = b)) = 0 := by
        rw [List.countP_eq_zero]
        intro x hx hfx
        exact h.1 (List.mem_map.2 ⟨x, hx, by rw [of_decide_eq_true hfx, hab]⟩)
      simp [List.countP_cons, hab, hzero]
    · simp only [List.countP_cons, hab, decide_False, Bool.false_eq_true, if_false, Nat.add_zero]
      exact ih h.2

/-- C9: in every world reached from a freshly managed session media (the one
`gst_rtsp_session_manage_media` returns, with an empty stream list) by any
sequence of get-stream, set-transport, play, pause and stop operations, the
stream list of the session media holds at most one session stream per
substream, and so at most one for the substream the engine resolves an index
to. -/
theorem at_most_one_stream_per_substream (E : Engine) (w : World) (sess : Ptr)
    (uri : GstRTSPUrl) (m : Option Ptr) (ops : List MediaOp) :
    (∀ media_stream : Ptr,
      ((MediaOp.run E (gst_rtsp_session_manage_media w sess uri m).2
          (gst_rtsp_session_manage_media w sess uri m).1 ops).medias
            (gst_rtsp_session_manage_media w sess uri m).2).streams.countP
        (fun s => decide (((MediaOp.run E (gst_rtsp_session_manage_media w sess uri m).2
          (gst_rtsp_session_manage_media w sess uri m).1 ops).streams s).media_stream
            = media_stream)) ≤ 1) ∧
    (∀ (handle : Ptr) (idx : Nat) (media_stream : Ptr),
      E.gst_rtsp_media_get_stream handle idx = some media_stream →
      ((MediaOp.run E (gst_rtsp_session_manage_media w sess uri m).2
          (gst_rtsp_session_manage_media w sess uri m).1 ops).medias
            (gst_rtsp_session_manage_media w sess uri m).2).streams.countP
        (fun s => decide (((MediaOp.run E (gst_rtsp_session_manage_media w sess uri m).2
          (gst_rtsp_session_manage_media w sess uri m).1 ops).streams s).media_stream
            = media_stream)) ≤ 1) := by
  have hinv := MediaOp.run_invariant E (gst_rtsp_session_manage_media w sess uri m).2 ops
    (gst_rtsp_session_manage_media w sess uri m).1
    (by simp [gst_rtsp_session_manage_media, gst_rtsp_url_copy])
    (by simp [World.bound_substreams, gst_rtsp_session_manage_media, gst_rtsp_url_copy])
  have hall : ∀ media_stream : Ptr,
      ((MediaOp.run E (gst_rtsp_session_manage_media w sess uri m).2
          (gst_rtsp_session_manage_media w sess uri m).1 ops).medias
            (gst_rtsp_session_manage_media w sess uri m).2).streams.countP
        (fun s => decide (((MediaOp.run E (gst_rtsp_session_manage_media w sess uri m).2
          (gst_rtsp_session_manage_media w sess uri m).1 ops).streams s).media_stream
            = media_stream)) ≤ 1 :=
    fun media_stream => countP_le_one_of_nodup_map _ media_stream _ hinv
  exact ⟨hall, fun _ _ media_stream _ => hall media_stream⟩

/-- C11: the server transport returned by
`gst_rtsp_session_stream_set_transport` depends on the client transport only
through `trans`, `profile`, `lower_transport` and `client_port`: for two client
transports that agree on these four fields the returned transports are equal;
the returned transport is the new empty transport with these four fields and
the server port range set, so every other field (destination, source, layers,
the modes, append, interleaved, ttl, port, ssrc) has the value of a newly
constructed transport and the server port of the client is not echoed. -/
theorem set_transport_reads_four_fields (w : World) (stream ct1 ct2 : Ptr)
    (htrans : (w.transports ct1).trans = (w.transports ct2).trans)
    (hprofile : (w.transports ct1).profile = (w.transports ct2).profile)
    (hlower : (w.transports ct1).lower_transport = (w.transports ct2).lower_transport)
    (hclient : (w.transports ct1).client_port = (w.transports ct2).client_port) :
    (gst_rtsp_session_stream_set_transport w stream ct1).2
      = (gst_rtsp_session_stream_set_transport w stream ct2).2 ∧
    (gst_rtsp_session_stream_set_transport w stream ct1).2
      = { gst_rtsp_transport_new with
          trans := (w.transports ct1).trans
          profile := (w.transports ct1).profile
          lower_transport := (w.transports ct1).lower_transport
          client_port := (w.transports ct1).client_port
          server_port := (w.media_streams (w.streams stream).media_stream).server_port } ∧
    (gst_rtsp_session_stream_set_transport w stream ct1).2.destination
      = gst_rtsp_transport_new.destination ∧
    (gst_rtsp_session_stream_set_transport w stream ct1).2.source
      = gst_rtsp_transport_new.source ∧
    (gst_rtsp_session_stream_set_transport w stream ct1).2.layers
      = gst_rtsp_transport_new.layers ∧
    (gst_rtsp_session_stream_set_transport w stream ct1).2.mode_play
      = gst_rtsp_transport_new.mode_play ∧
    (gst_rtsp_session_stream_set_transport w stream ct1).2.mode_record
      = gst_rtsp_transport_new.mode_record ∧
    (gst_rtsp_session_stream_set_transport w stream ct1).2.append
      = gst_rtsp_transport_new.append ∧
    (gst_rtsp_session_stream_set_transport w stream ct1).2.interleaved
      = gst_rtsp_transport_new.interleaved ∧
    (gst_rtsp_session_stream_set_transport w stream ct1).2.ttl
      = gst_rtsp_transport_new.ttl ∧
    (gst_rtsp_session_stream_set_transport w stream ct1).2.port
      = gst_rtsp_transport_new.port ∧
    (gst_rtsp_session_stream_set_transport w stream ct1).2.ssrc
      = gst_rtsp_transport_new.ssrc := by
  have hshape : ∀ ct, (gst_rtsp_session_stream_set_transport w stream ct).2
      = { gst_rtsp_transport_new with
          trans := (w.transports ct).trans
          profile := (w.transports ct).profile
          lower_transport := (w.transports ct).lower_transport
          client_port := (w.transports ct).client_port
          server_port := (w.media_streams (w.streams stream).media_stream).server_port } := by
    intro ct
    cases h : (w.streams stream).client_trans <;>
      simp [gst_rtsp_session_stream_set_transport, h, gst_rtsp_transport_free]
  refine ⟨?_, hshape ct1, ?_, ?_, ?_, ?_, ?_, ?_, ?_, ?_, ?_, ?_⟩
  · rw [hshape ct1, hshape ct2, htrans, hprofile, hlower, hclient]
  all_goals rw [hshape ct1]

/-- Witness of `set_transport_reads_four_fields`: the client transports 5 and 6
of `World.two_clients`, which differ in destination, ttl, interleaved channels
and server port. -/
theorem set_transport_reads_four_fields_witness :
    World.two_clients.transports 5 ≠ World.two_clients.transports 6 ∧
    (gst_rtsp_session_stream_set_transport World.two_clients 4 5).2
      = (gst_rtsp_session_stream_set_transport World.two_clients 4 6).2 ∧
    (gst_rtsp_session_stream_set_transport World.two_clients 4 5).2.server_port
      = ⟨6970, 6971⟩ ∧
    (gst_rtsp_session_stream_set_transport World.two_clients 4 5).2.destination = none :=
  ⟨by decide,
    (set_transport_reads_four_fields World.two_clients 4 5 6 (by decide) (by decide)
      (by decide) (by decide)).1,
    by decide, by decide⟩

/-- C13: `gst_rtsp_session_media_pause` and `gst_rtsp_session_media_stop` are
pass-throughs: each adds exactly one call to the trace, the pause (respectively
stop) request on the media handle, and no transport registration; each returns
the status the engine gives for that request; and each leaves every memory
(the session medias with their url, handle and stream list, the session streams
with their stored client transport, the urls, the transports) unchanged. -/
theorem pause_and_stop_pass_through (E : Engine) (w : World) (media : Ptr) :
    (gst_rtsp_session_media_pause E w media).1
      = { w with trace := w.trace ++ [Call.gst_rtsp_media_pause (w.medias media).media] } ∧
    (gst_rtsp_session_media_pause E w media).2
      = E.gst_rtsp_media_pause w.trace (w.medias media).media ∧
    (gst_rtsp_session_media_stop E w media).1
      = { w with trace := w.trace ++ [Call.gst_rtsp_media_stop (w.medias media).media] } ∧
    (gst_rtsp_session_media_stop E w media).2
      = E.gst_rtsp_media_stop w.trace (w.medias media).media ∧
    (gst_rtsp_session_media_pause E w media).1.medias = w.medias ∧
    (gst_rtsp_session_media_pause E w media).1.streams = w.streams ∧
    (gst_rtsp_session_media_pause E w media).1.urls = w.urls ∧
    (gst_rtsp_session_media_pause E w media).1.transports = w.transports ∧
    (gst_rtsp_session_media_stop E w media).1.medias = w.medias ∧
    (gst_rtsp_session_media_stop E w media).1.streams = w.streams ∧
    (gst_rtsp_session_media_stop E w media).1.urls = w.urls ∧
    (gst_rtsp_session_media_stop E w media).1.transports = w.transports ∧
    (∀ (media_stream : Ptr) (ct : Option Ptr),
      (Call.gst_rtsp_media_pause (w.medias media).media
          ≠ Call.gst_rtsp_media_stream_add media_stream ct) ∧
      (Call.gst_rtsp_media_stop (w.medias media).media
          ≠ Call.gst_rtsp_media_stream_add media_stream ct)) :=
  ⟨rfl, rfl, rfl, rfl, rfl, rfl, rfl, rfl, rfl, rfl, rfl, rfl,
    fun _ _ => ⟨fun h => Call.noConfusion h, fun h => Call.noConfusion h⟩⟩

/-- The world after `gst_rtsp_session_manage_media`, in one step: two new
objects (the session media at `brk`, the url copy at `brk + 1`) and the longer
list of the session. -/
theorem manage_media_world (w : World) (sess : Ptr) (uri : GstRTSPUrl) (media : Option Ptr) :
    (gst_rtsp_session_manage_media w sess uri media).1
      = { w with
          brk := w.brk + 1 + 1
          medias := Function.update w.medias w.brk ⟨some (w.brk + 1), media, []⟩
          urls := Function.update w.urls (w.brk + 1) uri
          sessions := Function.update w.sessions sess
            { w.sessions sess with medias := w.brk :: (w.sessions sess).medias } } ∧
    (gst_rtsp_session_manage_media w sess uri media).2 = w.brk := by
  constructor
  · simp [gst_rtsp_session_manage_media, gst_rtsp_url_copy]
  · rfl

theorem get_media_walk_congr (w w2 : World) (abspath : String) (walk : List Ptr)
    (h : ∀ r ∈ walk, (w2.medias r).url = (w.medias r).url ∧
      ∀ u ∈ (w.medias r).url, w2.urls u = w.urls u) :
    get_media_walk w2 abspath walk = get_media_walk w abspath walk := by
  induction walk with
  | nil => rfl
  | cons r walk ih =>
    have hr := h r (List.mem_cons_self _ _)
    have ih := ih (fun x hx => h x (List.mem_cons_of_mem _ hx))
    cases hu : (w.medias r).url with
    | none => simp [get_media_walk, hr.1, hu]
    | some u =>
      have hurl : w2.urls u = w.urls u := hr.2 u (by rw [hu]; rfl)
      simp [get_media_walk, hr.1, hu, hurl, ih]

/-- C12: `gst_rtsp_session_manage_media` always returns, and leaves a session
with one more entry: the new session media (a new object, wrapping `media`,
carrying a copy of `uri`, with an empty stream list) at the front, followed by
the previous entries in their previous order; the session identifier is
unchanged; every object allocated before the call (session media or url) is
unchanged, and so are the session streams and the transports. -/
theorem manage_media_prepends_new_entry (w : World) (sess : Ptr) (uri : GstRTSPUrl)
    (media : Option Ptr) :
    ((gst_rtsp_session_manage_media w sess uri media).1.sessions sess).medias
      = (gst_rtsp_session_manage_media w sess uri media).2 :: (w.sessions sess).medias ∧
    ((gst_rtsp_session_manage_media w sess uri media).1.sessions sess).medias.length
      = (w.sessions sess).medias.length + 1 ∧
    ((gst_rtsp_session_manage_media w sess uri media).1.sessions sess).sessionid
      = (w.sessions sess).sessionid ∧
    (gst_rtsp_session_manage_media w sess uri media).2 = w.brk ∧
    ((gst_rtsp_session_manage_media w sess uri media).1.medias
        (gst_rtsp_session_manage_media w sess uri media).2).media = media ∧
    ((gst_rtsp_session_manage_media w sess uri media).1.medias
        (gst_rtsp_session_manage_media w sess uri media).2).streams = [] ∧
    (∃ u, ((gst_rtsp_session_manage_media w sess uri media).1.medias
        (gst_rtsp_session_manage_media w sess uri media).2).url = some u ∧
      (gst_rtsp_session_manage_media w sess uri media).1.urls u = uri) ∧
    (∀ p, p < w.brk →
      (gst_rtsp_session_manage_media w sess uri media).1.medias p = w.medias p ∧
      (gst_rtsp_session_manage_media w sess uri media).1.urls p = w.urls p) ∧
    (gst_rtsp_session_manage_media w sess uri media).1.streams = w.streams ∧
    (gst_rtsp_session_manage_media w sess uri media).1.transports = w.transports := by
  rw [(manage_media_world w sess uri media).1, (manage_media_world w sess uri media).2]
  refine ⟨?_, ?_, ?_, rfl, ?_, ?_, ?_, ?_, rfl, rfl⟩
  · simp
  · simp
  · simp
  · simp
  · simp
  · exact ⟨w.brk + 1, by simp, by simp⟩
  · intro p hp
    have h1 : p ≠ w.brk := Nat.ne_of_lt hp
    have h2 : p ≠ w.brk + 1 := Nat.ne_of_lt (Nat.lt_succ_of_lt hp)
    simp [Function.update, h1, h2]

/-- Witness of `manage_media_prepends_new_entry`: attaching `cam2` with handle 8
to the demo session leaves the session media at address 2 and the url at
address 3, both allocated before, as they were. -/
theorem manage_media_prepends_new_entry_witness :
    (2 < World.demo.brk ∧ 3 < World.demo.brk) ∧
    ((gst_rtsp_session_manage_media World.demo 1 cam2 (some 8)).1.medias 2
        = World.demo.medias 2 ∧
      (gst_rtsp_session_manage_media World.demo 1 cam2 (some 8)).1.urls 2
        = World.demo.urls 2) ∧
    ((gst_rtsp_session_manage_media World.demo 1 cam2 (some 8)).1.medias 3
        = World.demo.medias 3 ∧
      (gst_rtsp_session_manage_media World.demo 1 cam2 (some 8)).1.urls 3
        = World.demo.urls 3) :=
  ⟨by decide,
    (manage_media_prepends_new_entry World.demo 1 cam2 (some 8)).2.2.2.2.2.2.2.1 2 (by decide),
    (manage_media_prepends_new_entry World.demo 1 cam2 (some 8)).2.2.2.2.2.2.2.1 3 (by decide)⟩

/-- C18: for a session whose entries are allocated objects and urls `u`, `v`
with different paths, `gst_rtsp_session_get_media` asked for `v` on the session
after `gst_rtsp_session_manage_media (sess, u, media)` returns the same result
(the same entry, not-found, or the same fault) as it did before the call. -/
theorem manage_media_keeps_other_lookups (w : World) (sess : Ptr) (u v : GstRTSPUrl)
    (media : Option Ptr) (hpath : u.abspath ≠ v.abspath) (halloc : w.session_allocated sess) :
    gst_rtsp_session_get_media (gst_rtsp_session_manage_media w sess u media).1
        (some sess) (some v)
      = gst_rtsp_session_get_media w (some sess) (some v) := by
  have hcmp : ¬ strcmp u.abspath v.abspath = 0 := fun h => hpath ((strcmp_eq_zero_iff _ _).1 h)
  rw [(manage_media_world w sess u media).1]
  simp only [gst_rtsp_session_get_media, Function.update_same, get_media_walk, hcmp, if_false]
  apply get_media_walk_congr
  intro r hr
  have hlt := (halloc r hr).1
  have h1 : r ≠ w.brk := Nat.ne_of_lt hlt
  refine ⟨by simp [Function.update, h1], ?_⟩
  intro x hx
  have h2 : x ≠ w.brk + 1 := Nat.ne_of_lt (Nat.lt_succ_of_lt ((halloc r hr).2 x hx))
  simp [Function.update, h2]

/-- Witness of `manage_media_keeps_other_lookups`: attaching `cam2` to the demo
session does not change what a lookup of `cam1` returns. -/
theorem manage_media_keeps_other_lookups_witness :
    cam2.abspath ≠ cam1.abspath ∧ World.demo.session_allocated 1 ∧
    gst_rtsp_session_get_media (gst_rtsp_session_manage_media World.demo 1 cam2 (some 8)).1
        (some 1) (some cam1)
      = gst_rtsp_session_get_media World.demo (some 1) (some cam1) :=
  ⟨by decide, by decide,
    manage_media_keeps_other_lookups World.demo 1 cam2 cam1 (some 8) (by decide) (by decide)⟩

theorem manage_medias_abspaths (calls : List (GstRTSPUrl × Option Ptr)) (w : World)
    (sess : Ptr) (halloc : w.session_allocated sess) :
    (manage_medias w sess calls).session_allocated sess ∧
    ((manage_medias w sess calls).sessions sess).medias.map
        (manage_medias w sess calls).media_abspath
      = (calls.reverse.map (fun c => some c.1.abspath))
        ++ (w.sessions sess).medias.map w.media_abspath := by
  induction calls generalizing w with
  | nil => exact ⟨halloc, by simp [manage_medias]⟩
  | cons c calls ih =>
    have hw := (manage_media_world w sess c.1 c.2).1
    have hstep : (gst_rtsp_session_manage_media w sess c.1 c.2).1.session_allocated sess := by
      rw [hw]
      intro r hr
      simp only [Function.update_same, List.mem_cons] at hr
      rcases hr with rfl | hr
      · refine ⟨Nat.lt_succ_of_lt (Nat.lt_succ_self _), ?_⟩
        intro u hu
        simp only [Function.update_same, Option.mem_def, Option.some.injEq] at hu
        subst hu
        exact Nat.lt_succ_self _
      · have hlt := (halloc r hr).1
        have h1 : r ≠ w.brk := Nat.ne_of_lt hlt
        refine ⟨Nat.lt_succ_of_lt (Nat.lt_succ_of_lt hlt), ?_⟩
        intro u hu
        simp only [Function.update, h1, dite_false, eq_rec_constant] at hu
        exact Nat.lt_succ_of_lt (Nat.lt_succ_of_lt ((halloc r hr).2 u hu))
    have hpaths : ((gst_rtsp_session_manage_media w sess c.1 c.2).1.sessions sess).medias.map
        (gst_rtsp_session_manage_media w sess c.1 c.2).1.media_abspath
        = some c.1.abspath :: (w.sessions sess).medias.map w.media_abspath := by
      rw [hw]
      simp only [Function.update_same, List.map_cons]
      congr 1
      · simp [World.media_abspath]
      · apply List.map_congr_left
        intro r hr
        have h1 : r ≠ w.brk := Nat.ne_of_lt (halloc r hr).1
        cases hu : (w.medias r).url with
        | none => simp [World.media_abspath, Function.update, h1, hu]
        | some u =>
          have h2 : u ≠ w.brk + 1 :=
            Nat.ne_of_lt (Nat.lt_succ_of_lt ((halloc r hr).2 u (by rw [hu]; rfl)))
          simp [World.media_abspath, Function.update, h1, hu, h2]
    have ih := ih (gst_rtsp_session_manage_media w sess c.1 c.2).1 hstep
    refine ⟨ih.1, ?_⟩
    have hfold : manage_medias w sess (c :: calls)
        = manage_medias (gst_rtsp_session_manage_media w sess c.1 c.2).1 sess calls := rfl
    rw [hfold, ih.2, hpaths]
    simp

theorem manage_medias_count_abspath (w : World) (sessionid : Option String)
    (calls : List (GstRTSPUrl × Option Ptr)) (abspath : String) :
    (manage_medias (gst_rtsp_session_new w sessionid).1 (gst_rtsp_session_new w sessionid).2
        calls).count_abspath (gst_rtsp_session_new w sessionid).2 abspath
      = calls.countP (fun c => decide (c.1.abspath = abspath)) := by
  have hnew : ((gst_rtsp_session_new w sessionid).1.sessions
      (gst_rtsp_session_new w sessionid).2).medias = [] := by
    simp [gst_rtsp_session_new]
  have halloc : (gst_rtsp_session_new w sessionid).1.session_allocated
      (gst_rtsp_session_new w sessionid).2 := by
    intro r hr
    rw [hnew] at hr
    cases hr
  have h := (manage_medias_abspaths calls _ _ halloc).2
  rw [hnew, List.map_nil, List.append_nil] at h
  have hcount : ∀ (l : List Ptr) (f : Ptr → Option String),
      l.countP (fun r => decide (f r = some abspath))
        = (l.map f).countP (fun o => decide (o = some abspath)) := by
    intro l f
    rw [List.countP_map]
    rfl
  unfold World.count_abspath
  rw [hcount, h, List.countP_map, (List.reverse_perm calls).countP_eq]
  apply List.countP_congr
  intro c _
  simp

/-- C14, as stated, fails: in the session created by `gst_rtsp_session_new` and
extended by two `gst_rtsp_session_manage_media` calls with the url `cam1`, two
session medias have the path `/cam1`. -/
theorem two_medias_for_one_path :
    (manage_medias (gst_rtsp_session_new World.zero (some "S1")).1
        (gst_rtsp_session_new World.zero (some "S1")).2
        [(cam1, some 7), (cam1, some 8)]).count_abspath
          (gst_rtsp_session_new World.zero (some "S1")).2 "/cam1" = 2 ∧
    ¬ (manage_medias (gst_rtsp_session_new World.zero (some "S1")).1
        (gst_rtsp_session_new World.zero (some "S1")).2
        [(cam1, some 7), (cam1, some 8)]).count_abspath
          (gst_rtsp_session_new World.zero (some "S1")).2 "/cam1" ≤ 1 := by
  decide

/-- C14, amended: in every session state reached from `gst_rtsp_session_new` by
a sequence of `gst_rtsp_session_manage_media` calls, the number of session
medias with a given path is the number of calls made with that path; so when
the urls of the calls have pairwise different paths there is at most one
session media per path. -/
theorem one_media_per_manage_media_call (w : World) (sessionid : Option String)
    (calls : List (GstRTSPUrl × Option Ptr)) :
    (∀ abspath : String,
      (manage_medias (gst_rtsp_session_new w sessionid).1 (gst_rtsp_session_new w sessionid).2
          calls).count_abspath (gst_rtsp_session_new w sessionid).2 abspath
        = calls.countP (fun c => decide (c.1.abspath = abspath))) ∧
    ((calls.map (fun c => c.1.abspath)).Nodup →
      ∀ abspath : String,
        (manage_medias (gst_rtsp_session_new w sessionid).1
            (gst_rtsp_session_new w sessionid).2 calls).count_abspath
              (gst_rtsp_session_new w sessionid).2 abspath ≤ 1) := by
  refine ⟨manage_medias_count_abspath w sessionid calls, ?_⟩
  intro hdistinct abspath
  rw [manage_medias_count_abspath]
  exact countP_le_one_of_nodup_map (fun c => c.1.abspath) abspath calls hdistinct

/-- Witness of `one_media_per_manage_media_call`: the calls with `cam1` and
`cam2`, whose paths differ. -/
theorem one_media_per_manage_media_call_witness :
    ([(cam1, some 7), (cam2, some 8)].map
        (fun c : GstRTSPUrl × Option Ptr => c.1.abspath)).Nodup ∧
    ∀ abspath : String,
      (manage_medias (gst_rtsp_session_new World.zero (some "S1")).1
          (gst_rtsp_session_new World.zero (some "S1")).2
          [(cam1, some 7), (cam2, some 8)]).count_abspath
            (gst_rtsp_session_new World.zero (some "S1")).2 abspath ≤ 1 :=
  ⟨by decide,
    (one_media_per_manage_media_call World.zero (some "S1")
      [(cam1, some 7), (cam2, some 8)]).2 (by decide)⟩

/-- The world after `gst_rtsp_session_stream_set_transport`: the old client
transport, if any, is released and the new one stored; nothing else changes. -/
theorem set_transport_world (w : World) (stream ct : Ptr) :
    (gst_rtsp_session_stream_set_transport w stream ct).1
      = { w with
          trace := w.trace ++
            (match (w.streams stream).client_trans with
              | some old => [Call.gst_rtsp_transport_free old]
              | none => [])
          streams := Function.update w.streams stream
            { w.streams stream with client_trans := some ct } } := by
  cases h : (w.streams stream).client_trans <;>
    simp [gst_rtsp_session_stream_set_transport, h, gst_rtsp_transport_free]

/-- Every operation on a session media keeps its media handle and only appends
to the trace. -/
theorem MediaOp.apply_handle_trace (E : Engine) (media : Ptr) (w : World) (op : MediaOp) :
    ((MediaOp.apply E media w op).medias media).media = (w.medias media).media ∧
    ∃ ext, (MediaOp.apply E media w op).trace = w.trace ++ ext := by
  cases op with
  | get_stream idx =>
    rcases get_stream_world E w media idx with h | ⟨media_stream, _, h⟩
    · rw [MediaOp.apply, h]
      exact ⟨rfl, [], by simp⟩
    · rw [MediaOp.apply, h]
      exact ⟨by simp, [], by simp⟩
  | set_transport stream ct =>
    rw [MediaOp.apply, set_transport_world]
    exact ⟨rfl, _, rfl⟩
  | play =>
    rw [MediaOp.apply, gst_rtsp_session_media_play, play_walk_eq]
    exact ⟨rfl, _, List.append_assoc _ _ _⟩
  | pause => exact ⟨rfl, _, rfl⟩
  | stop => exact ⟨rfl, _, rfl⟩

theorem MediaOp.run_handle_trace (E : Engine) (media : Ptr) (ops : List MediaOp) (w : World) :
    ((MediaOp.run E media w ops).medias media).media = (w.medias media).media ∧
    ∃ ext, (MediaOp.run E media w ops).trace = w.trace ++ ext := by
  induction ops generalizing w with
  | nil => exact ⟨rfl, [], by simp [MediaOp.run]⟩
  | cons op ops ih =>
    have h := MediaOp.apply_handle_trace E media w op
    have ih := ih (MediaOp.apply E media w op)
    have hrun : MediaOp.run E media w (op :: ops)
        = MediaOp.run E media (MediaOp.apply E media w op) ops := rfl
    rw [hrun]
    obtain ⟨ext1, h1⟩ := h.2
    obtain ⟨ext2, h2⟩ := ih.2
    exact ⟨by rw [ih.1, h.1], ext1 ++ ext2, by rw [h2, h1, List.append_assoc]⟩

/-- C15: with a media handle whose state machine forbids play and pause after a
successful stop (`Engine.forbids_after_stop`), once
`gst_rtsp_session_media_stop` on a session media has returned a status other
than failure, `gst_rtsp_session_media_play` and `gst_rtsp_session_media_pause`
on that session media return failure, directly after the stop and after any
further operations on the session media. -/
theorem no_play_or_pause_after_stop (E : Engine) (hE : E.forbids_after_stop) (w : World)
    (media : Ptr) (ops : List MediaOp)
    (hstop : (gst_rtsp_session_media_stop E w media).2
      ≠ GstStateChangeReturn.GST_STATE_CHANGE_FAILURE) :
    (gst_rtsp_session_media_play E
        (MediaOp.run E media (gst_rtsp_session_media_stop E w media).1 ops) media).2
      = GstStateChangeReturn.GST_STATE_CHANGE_FAILURE ∧
    (gst_rtsp_session_media_pause E
        (MediaOp.run E media (gst_rtsp_session_media_stop E w media).1 ops) media).2
      = GstStateChangeReturn.GST_STATE_CHANGE_FAILURE := by
  obtain ⟨hhandle, ext, htrace⟩ :=
    MediaOp.run_handle_trace E media ops (gst_rtsp_session_media_stop E w media).1
  have hhandle2 : ((MediaOp.run E media (gst_rtsp_session_media_stop E w media).1 ops).medias
      media).media = (w.medias media).media := hhandle
  have htrace2 : (MediaOp.run E media (gst_rtsp_session_media_stop E w media).1 ops).trace
      = w.trace ++ Call.gst_rtsp_media_stop (w.medias media).media :: ext := by
    rw [htrace]
    simp [gst_rtsp_session_media_stop]
  have hstop2 : E.gst_rtsp_media_stop w.trace (w.medias media).media
      ≠ GstStateChangeReturn.GST_STATE_CHANGE_FAILURE := hstop
  constructor
  · simp only [gst_rtsp_session_media_play, play_walk_eq, hhandle2, htrace2]
    rw [List.append_assoc, List.cons_append]
    exact (hE w.trace _ (w.medias media).media hstop2).1
  · simp only [gst_rtsp_session_media_pause, hhandle2, htrace2]
    exact (hE w.trace _ (w.medias media).media hstop2).2

theorem Engine.strict_forbids_after_stop : Engine.strict.forbids_after_stop := by
  intro before after m _
  simp [Engine.strict]

/-- Witness of `no_play_or_pause_after_stop`: the engine `Engine.strict` and the
demo session media; after a stop and a later get-stream, play and pause
fail. -/
theorem no_play_or_pause_after_stop_witness :
    (gst_rtsp_session_media_stop Engine.strict World.demo 2).2
      ≠ GstStateChangeReturn.GST_STATE_CHANGE_FAILURE ∧
    (gst_rtsp_session_media_play Engine.strict
        (MediaOp.run Engine.strict 2 (gst_rtsp_session_media_stop Engine.strict World.demo 2).1
          [MediaOp.get_stream 0]) 2).2
      = GstStateChangeReturn.GST_STATE_CHANGE_FAILURE ∧
    (gst_rtsp_session_media_pause Engine.strict
        (MediaOp.run Engine.strict 2 (gst_rtsp_session_media_stop Engine.strict World.demo 2).1
          [MediaOp.get_stream 0]) 2).2
      = GstStateChangeReturn.GST_STATE_CHANGE_FAILURE :=
  ⟨by decide,
    no_play_or_pause_after_stop Engine.strict Engine.strict_forbids_after_stop World.demo 2
      [MediaOp.get_stream 0] (by decide)⟩

theorem get_stream_walk_congr (w w2 : World) (media_stream : Ptr) (walk : List Ptr)
    (h : ∀ s ∈ walk, (w2.streams s).media_stream = (w.streams s).media_stream) :
    get_stream_walk w2 media_stream walk = get_stream_walk w media_stream walk := by
  induction walk with
  | nil => rfl
  | cons r walk ih =>
    have hr := h r (List.mem_cons_self _ _)
    have ih := ih (fun x hx => h x (List.mem_cons_of_mem _ hx))
    simp [get_stream_walk, hr, ih]

theorem World.negotiated_of_trace (w : World) (trace : List Call)
    (media m media_stream t ct : Ptr) (h : w.negotiated media m media_stream t ct) :
    ({ w with trace := trace } : World).negotiated media m media_stream t ct :=
  ⟨h.1, h.2.1,
    (get_stream_walk_congr w { w with trace := trace } media_stream _ (fun _ _ => rfl)).trans
      h.2.2.1,
    h.2.2.2⟩

theorem MediaOp.apply_negotiated (E : Engine) (media m media_stream t ct : Ptr) (w : World)
    (op : MediaOp) (hop : ∀ c, op ≠ MediaOp.set_transport t c)
    (h : w.negotiated media m media_stream t ct) :
    (MediaOp.apply E media w op).negotiated media m media_stream t ct := by
  obtain ⟨hm, halloc, hwalk, hct⟩ := h
  have htmem := (get_stream_walk_some w media_stream _ t hwalk).1
  cases op with
  | get_stream idx =>
    rcases get_stream_world E w media idx with h | ⟨ms2, hnone, h⟩
    · rw [MediaOp.apply, h]
      exact ⟨hm, halloc, hwalk, hct⟩
    · rw [MediaOp.apply, h]
      have htne : t ≠ w.brk := Nat.ne_of_lt (halloc t htmem)
      have hms : ¬ ms2 = media_stream := by
        intro heq
        rw [heq, hwalk] at hnone
        cases hnone
      refine ⟨by simp [hm], ?_, ?_, by simp [Function.update, htne, hct]⟩
      · intro s hs
        simp only [Function.update_same, List.mem_cons] at hs
        rcases hs with rfl | hs
        · exact Nat.lt_succ_self _
        · exact Nat.lt_succ_of_lt (halloc s hs)
      · simp only [Function.update_same, get_stream_walk, hms, if_false]
        rw [← hwalk]
        apply get_stream_walk_congr
        intro s hs
        have hne : s ≠ w.brk := Nat.ne_of_lt (halloc s hs)
        simp [Function.update, hne]
  | set_transport stream c =>
    have hne : t ≠ stream := by
      intro heq
      exact hop c (by rw [heq])
    rw [MediaOp.apply, set_transport_world]
    refine ⟨hm, halloc, ?_, by simp [Function.update, hne, hct]⟩
    rw [← hwalk]
    apply get_stream_walk_congr
    intro s _
    by_cases hs : s = stream
    · subst hs; simp
    · simp [Function.update, hs]
  | play =>
    rw [MediaOp.apply, gst_rtsp_session_media_play, play_walk_eq]
    exact World.negotiated_of_trace w _ media m media_stream t ct ⟨hm, halloc, hwalk, hct⟩
  | pause =>
    exact World.negotiated_of_trace w _ media m media_stream t ct ⟨hm, halloc, hwalk, hct⟩
  | stop =>
    exact World.negotiated_of_trace w _ media m media_stream t ct ⟨hm, halloc, hwalk, hct⟩

theorem MediaOp.run_negotiated (E : Engine) (media m media_stream t ct : Ptr)
    (ops : List MediaOp) (w : World) (hops : ∀ op ∈ ops, ∀ c, op ≠ MediaOp.set_transport t c)
    (h : w.negotiated media m media_stream t ct) :
    (MediaOp.run E media w ops).negotiated media m media_stream t ct := by
  induction ops generalizing w with
  | nil => exact h
  | cons op ops ih =>
    exact ih (MediaOp.apply E media w op)
      (fun o ho => hops o (List.mem_cons_of_mem _ ho))
      (MediaOp.apply_negotiated E media m media_stream t ct w op
        (hops op (List.mem_cons_self _ _)) h)

theorem get_stream_found (E : Engine) (w : World) (media m media_stream t : Ptr) (idx : Nat)
    (hm : (w.medias media).media = some m)
    (hs : E.gst_rtsp_media_get_stream m idx = some media_stream)
    (halloc : ∀ s ∈ (w.medias media).streams, s < w.brk)
    (ht : (gst_rtsp_session_media_get_stream E w (some media) idx).2 = some t) :
    ((gst_rtsp_session_media_get_stream E w (some media) idx).1.medias media).media = some m ∧
    (∀ s ∈ ((gst_rtsp_session_media_get_stream E w (some media) idx).1.medias media).streams,
      s < (gst_rtsp_session_media_get_stream E w (some media) idx).1.brk) ∧
    get_stream_walk (gst_rtsp_session_media_get_stream E w (some media) idx).1 media_stream
      ((gst_rtsp_session_media_get_stream E w (some media) idx).1.medias media).streams
        = some t ∧
    (get_stream_walk w media_stream (w.medias media).streams = none →
      ((gst_rtsp_session_media_get_stream E w (some media) idx).1.streams t).client_trans
        = none) := by
  cases hwalk : get_stream_walk w media_stream (w.medias media).streams with
  | some t0 =>
    have hres : gst_rtsp_session_media_get_stream E w (some media) idx = (w, some t0) := by
      simp [gst_rtsp_session_media_get_stream, hm, hs, hwalk]
    rw [hres] at ht ⊢
    have ht0 : t0 = t := Option.some.inj ht
    subst ht0
    exact ⟨hm, halloc, hwalk, fun h => by cases h⟩
  | none =>
    have hres : (gst_rtsp_session_media_get_stream E w (some media) idx).2 = some w.brk := by
      simp [gst_rtsp_session_media_get_stream, hm, hs, hwalk]
    have hbrk : w.brk = t := Option.some.inj (hres.symm.trans ht)
    subst hbrk
    rcases get_stream_world E w media idx with h | ⟨ms2, _, h⟩
    · exfalso
      have h2 : (gst_rtsp_session_media_get_stream E w (some media) idx).1.brk = w.brk + 1 := by
        simp [gst_rtsp_session_media_get_stream, hm, hs, hwalk]
      rw [h] at h2
      exact absurd h2 (Nat.ne_of_lt (Nat.lt_succ_self _))
    · have hms : ((gst_rtsp_session_media_get_stream E w (some media) idx).1.streams
          w.brk).media_stream = media_stream := by
        simp [gst_rtsp_session_media_get_stream, hm, hs, hwalk]
      rw [h] at hms ⊢
      simp only [Function.update_same] at hms
      refine ⟨by simp [hm], ?_, ?_, fun _ => by simp⟩
      · intro s hs2
        simp only [Function.update_same, List.mem_cons] at hs2
        rcases hs2 with rfl | hs2
        · exact Nat.lt_succ_self _
        · exact Nat.lt_succ_of_lt (halloc s hs2)
      · simp [get_stream_walk, hms]

/-- C17: let `t` be the stream `gst_rtsp_session_media_get_stream (media, idx)`
returns for a valid index, and let `gst_rtsp_session_stream_set_transport
(t, ct)` be called next.  After any later operations on the session media that
do not set another transport on `t`, a lookup at `idx` returns `t` again and
changes nothing, `t` still stores `ct` and is bound to the same substream, and
a play registers `ct` for that substream.  If no listed stream was bound to the
substream before the first lookup, the stream it creates stores no client
transport. -/
theorem negotiated_transport_survives_lookup (E : Engine) (w : World)
    (media m media_stream t ct : Ptr) (idx : Nat) (ops : List MediaOp)
    (hm : (w.medias media).media = some m)
    (hs : E.gst_rtsp_media_get_stream m idx = some media_stream)
    (halloc : ∀ s ∈ (w.medias media).streams, s < w.brk)
    (ht : (gst_rtsp_session_media_get_stream E w (some media) idx).2 = some t)
    (hops : ∀ op ∈ ops, ∀ c, op ≠ MediaOp.set_transport t c) :
    gst_rtsp_session_media_get_stream E (negotiate_then E w media idx t ct ops) (some media) idx
      = (negotiate_then E w media idx t ct ops, some t) ∧
    ((negotiate_then E w media idx t ct ops).streams t).client_trans = some ct ∧
    ((negotiate_then E w media idx t ct ops).streams t).media_stream = media_stream ∧
    Call.gst_rtsp_media_stream_add media_stream (some ct)
      ∈ ((negotiate_then E w media idx t ct ops).medias media).streams.map
          (negotiate_then E w media idx t ct ops).registration ∧
    (gst_rtsp_session_media_play E (negotiate_then E w media idx t ct ops) media).1.trace
      = (negotiate_then E w media idx t ct ops).trace
        ++ ((negotiate_then E w media idx t ct ops).medias media).streams.map
            (negotiate_then E w media idx t ct ops).registration
        ++ [Call.gst_rtsp_media_play (some m)] ∧
    ((∀ s ∈ (w.medias media).streams, (w.streams s).media_stream ≠ media_stream) →
      ((gst_rtsp_session_media_get_stream E w (some media) idx).1.streams t).client_trans
        = none) := by
  obtain ⟨hm1, halloc1, hwalk1, hnew⟩ := get_stream_found E w media m media_stream t idx hm hs
    halloc ht
  have h2 : (gst_rtsp_session_stream_set_transport
      (gst_rtsp_session_media_get_stream E w (some media) idx).1 t ct).1.negotiated
        media m media_stream t ct := by
    rw [set_transport_world]
    refine ⟨hm1, halloc1, ?_, by simp⟩
    rw [← hwalk1]
    apply get_stream_walk_congr
    intro s _
    by_cases hst : s = t
    · subst hst; simp
    · simp [Function.update, hst]
  have h3 := MediaOp.run_negotiated E media m media_stream t ct ops _ hops h2
  unfold negotiate_then
  generalize MediaOp.run E media (gst_rtsp_session_stream_set_transport
    (gst_rtsp_session_media_get_stream E w (some media) idx).1 t ct).1 ops = w3 at h3 ⊢
  obtain ⟨hm3, _, hwalk3, hct3⟩ := h3
  have hsome := get_stream_walk_some w3 media_stream _ t hwalk3
  refine ⟨?_, hct3, hsome.2, ?_, ?_, ?_⟩
  · simp [gst_rtsp_session_media_get_stream, hm3, hs, hwalk3]
  · refine List.mem_map.2 ⟨t, hsome.1, ?_⟩
    simp [World.registration, hct3, hsome.2]
  · simp [gst_rtsp_session_media_play, play_walk_eq, hm3]
  · intro hnone
    apply hnew
    cases hw : get_stream_walk w media_stream (w.medias media).streams with
    | none => rfl
    | some t0 =>
      have h0 := get_stream_walk_some w media_stream _ t0 hw
      exact absurd h0.2 (hnone t0 h0.1)

/-- Witness of `negotiated_transport_survives_lookup`: on the demo session media
the lookup at index 0 creates stream 4; client transport 20 is set on it; after
a lookup at index 1 and a play, the lookup at index 0 returns stream 4, which
stores transport 20. -/
theorem negotiated_transport_survives_lookup_witness :
    (World.demo.medias 2).media = some 7 ∧
    Engine.demo.gst_rtsp_media_get_stream 7 0 = some 70 ∧
    (gst_rtsp_session_media_get_stream Engine.demo World.demo (some 2) 0).2 = some 4 ∧
    gst_rtsp_session_media_get_stream Engine.demo
        (negotiate_then Engine.demo World.demo 2 0 4 20 [MediaOp.get_stream 1, MediaOp.play])
        (some 2) 0
      = (negotiate_then Engine.demo World.demo 2 0 4 20 [MediaOp.get_stream 1, MediaOp.play],
          some 4) ∧
    ((negotiate_then Engine.demo World.demo 2 0 4 20
        [MediaOp.get_stream 1, MediaOp.play]).streams 4).client_trans = some 20 ∧
    Call.gst_rtsp_media_stream_add 70 (some 20)
      ∈ ((negotiate_then Engine.demo World.demo 2 0 4 20
          [MediaOp.get_stream 1, MediaOp.play]).medias 2).streams.map
          (negotiate_then Engine.demo World.demo 2 0 4 20
            [MediaOp.get_stream 1, MediaOp.play]).registration :=
  have h := negotiated_transport_survives_lookup Engine.demo World.demo 2 7 70 4 20 0
    [MediaOp.get_stream 1, MediaOp.play] (by decide) (by decide) (by decide) (by decide)
    (fun op hop c => by
      simp only [List.mem_cons, List.mem_singleton, List.not_mem_nil, or_false] at hop
      rcases hop with rfl | rfl <;> exact fun h => MediaOp.noConfusion h)
  ⟨by decide, by decide, by decide, h.1, h.2.1, h.2.2.2.1⟩

theorem MediaOp.apply_transport_origin (E : Engine) (media : Ptr) (w : World) (op : MediaOp)
    (P : Ptr → Prop)
    (hP : ∀ s ∈ (w.medias media).streams, (w.streams s).client_trans ≠ none → P s) :
    ∀ s ∈ ((MediaOp.apply E media w op).medias media).streams,
      ((MediaOp.apply E media w op).streams s).client_trans ≠ none →
        P s ∨ ∃ ct, op = MediaOp.set_transport s ct := by
  cases op with
  | get_stream idx =>
    rcases get_stream_world E w media idx with h | ⟨ms2, _, h⟩
    · rw [MediaOp.apply, h]
      exact fun s hs hne => Or.inl (hP s hs hne)
    · rw [MediaOp.apply, h]
      intro s hs hne
      by_cases hsb : s = w.brk
      · subst hsb
        simp at hne
      · simp only [Function.update_same, List.mem_cons, hsb, false_or] at hs
        simp only [Function.update, hsb, dite_false] at hne
        exact Or.inl (hP s hs hne)
  | set_transport stream c =>
    rw [MediaOp.apply, set_transport_world]
    intro s hs hne
    by_cases hst : s = stream
    · subst hst
      exact Or.inr ⟨c, rfl⟩
    · simp only [Function.update, hst, dite_false] at hne
      exact Or.inl (hP s hs hne)
  | play =>
    rw [MediaOp.apply, gst_rtsp_session_media_play, play_walk_eq]
    exact fun s hs hne => Or.inl (hP s hs hne)
  | pause => exact fun s hs hne => Or.inl (hP s hs hne)
  | stop => exact fun s hs hne => Or.inl (hP s hs hne)

theorem MediaOp.run_transport_origin (E : Engine) (media : Ptr) (ops : List MediaOp)
    (w : World) (P : Ptr → Prop)
    (hP : ∀ s ∈ (w.medias media).streams, (w.streams s).client_trans ≠ none → P s) :
    ∀ s ∈ ((MediaOp.run E media w ops).medias media).streams,
      ((MediaOp.run E media w ops).streams s).client_trans ≠ none →
        P s ∨ ∃ ct, MediaOp.set_transport s ct ∈ ops := by
  induction ops generalizing w P with
  | nil => exact fun s hs hne => Or.inl (hP s hs hne)
  | cons op ops ih =>
    intro s hs hne
    have hstep := MediaOp.apply_transport_origin E media w op P hP
    rcases ih (MediaOp.apply E media w op)
        (fun s => P s ∨ ∃ ct, op = MediaOp.set_transport s ct) hstep s hs hne with
      (h | ⟨ct, h⟩) | ⟨ct, h⟩
    · exact Or.inl h
    · exact Or.inr ⟨ct, by rw [h]; exact List.mem_cons_self _ _⟩
    · exact Or.inr ⟨ct, List.mem_cons_of_mem _ h⟩

theorem play_calls_eq (E : Engine) (w : World) (media : Ptr) :
    play_calls E w media
      = (w.medias media).streams.map w.registration
        ++ [Call.gst_rtsp_media_play (w.medias media).media] := by
  unfold play_calls
  simp [gst_rtsp_session_media_play, play_walk_eq]

/-- C19: play does not need a negotiated transport.  For a session media just
returned by `gst_rtsp_session_manage_media` whose handle has a substream at
`idx`, after one `gst_rtsp_session_media_get_stream (media, idx)` and no
`gst_rtsp_session_stream_set_transport`, `gst_rtsp_session_media_play` calls
`gst_rtsp_media_stream_add` with a `NULL` client transport and then still
issues `gst_rtsp_media_play`.  And in any state reached from such a session
media by operations `ops`, if play registers no `NULL` client transport, then
`gst_rtsp_session_stream_set_transport` was called on every stream of the
session media. -/
theorem play_without_transport (E : Engine) (w : World) (sess : Ptr) (uri : GstRTSPUrl)
    (m : Option Ptr) :
    (∀ (handle : Ptr) (idx : Nat) (media_stream : Ptr),
      m = some handle → E.gst_rtsp_media_get_stream handle idx = some media_stream →
      play_calls E (managed_then E w sess uri m [MediaOp.get_stream idx])
          (gst_rtsp_session_manage_media w sess uri m).2
        = [Call.gst_rtsp_media_stream_add media_stream none,
            Call.gst_rtsp_media_play (some handle)]) ∧
    (∀ ops : List MediaOp,
      (∀ media_stream : Ptr,
        Call.gst_rtsp_media_stream_add media_stream none
          ∉ play_calls E (managed_then E w sess uri m ops)
              (gst_rtsp_session_manage_media w sess uri m).2) →
      ∀ s ∈ ((managed_then E w sess uri m ops).medias
          (gst_rtsp_session_manage_media w sess uri m).2).streams,
        ∃ ct, MediaOp.set_transport s ct ∈ ops) := by
  constructor
  · intro handle idx media_stream hm hs
    subst hm
    rw [play_calls_eq]
    simp [managed_then, MediaOp.run, MediaOp.apply, gst_rtsp_session_media_get_stream,
      (manage_media_world w sess uri (some handle)).1,
      (manage_media_world w sess uri (some handle)).2, hs, get_stream_walk,
      World.registration]
  · intro ops hplay s hs
    have horigin := MediaOp.run_transport_origin E (gst_rtsp_session_manage_media w sess uri m).2
      ops (gst_rtsp_session_manage_media w sess uri m).1 (fun _ => False)
      (by
        rw [(manage_media_world w sess uri m).1, (manage_media_world w sess uri m).2]
        intro s hs
        simp at hs)
    have hne : ((managed_then E w sess uri m ops).streams s).client_trans ≠ none := by
      intro hnone
      apply hplay ((managed_then E w sess uri m ops).streams s).media_stream
      rw [play_calls_eq]
      apply List.mem_append_left
      refine List.mem_map.2 ⟨s, hs, ?_⟩
      simp [World.registration, hnone]
    rcases horigin s hs hne with h | h
    · exact absurd h id
    · exact h

/-- Witness of `play_without_transport`: on the demo engine, a session media
managed for `cam1` with handle 7; after a lookup at index 0 play registers a
`NULL` transport for substream 70 and requests play; after the lookup and a
set-transport on the stream (address 4) play registers no `NULL` transport. -/
theorem play_without_transport_witness :
    play_calls Engine.demo
        (managed_then Engine.demo (gst_rtsp_session_new World.zero (some "S1")).1 1 cam1
          (some 7) [MediaOp.get_stream 0])
        (gst_rtsp_session_manage_media (gst_rtsp_session_new World.zero (some "S1")).1 1 cam1
          (some 7)).2
      = [Call.gst_rtsp_media_stream_add 70 none, Call.gst_rtsp_media_play (some 7)] ∧
    ∀ s ∈ ((managed_then Engine.demo (gst_rtsp_session_new World.zero (some "S1")).1 1 cam1
        (some 7) [MediaOp.get_stream 0, MediaOp.set_transport 4 20]).medias
          (gst_rtsp_session_manage_media (gst_rtsp_session_new World.zero (some "S1")).1 1 cam1
            (some 7)).2).streams,
      ∃ ct, MediaOp.set_transport s ct
        ∈ [MediaOp.get_stream 0, MediaOp.set_transport 4 20] :=
  ⟨(play_without_transport Engine.demo (gst_rtsp_session_new World.zero (some "S1")).1 1 cam1
      (some 7)).1 7 0 70 rfl (by decide),
    (play_without_transport Engine.demo (gst_rtsp_session_new World.zero (some "S1")).1 1 cam1
      (some 7)).2 [MediaOp.get_stream 0, MediaOp.set_transport 4 20]
      (fun media_stream => by
        rw [play_calls_eq]
        have hlist : ((managed_then Engine.demo (gst_rtsp_session_new World.zero (some "S1")).1
            1 cam1 (some 7) [MediaOp.get_stream 0, MediaOp.set_transport 4 20]).medias
              (gst_rtsp_session_manage_media (gst_rtsp_session_new World.zero (some "S1")).1
                1 cam1 (some 7)).2).streams = [4] := by decide
        have hreg : (managed_then Engine.demo (gst_rtsp_session_new World.zero (some "S1")).1
            1 cam1 (some 7) [MediaOp.get_stream 0, MediaOp.set_transport 4 20]).registration 4
              = Call.gst_rtsp_media_stream_add 70 (some 20) := by decide
        rw [hlist]
        simp [hreg])⟩

theorem free_stream_world (w : World) (stream media : Ptr) :
    gst_rtsp_session_free_stream w stream media
      = { w with trace := w.trace ++ w.stream_releases stream } := by
  cases h : (w.streams stream).client_trans <;>
    simp [gst_rtsp_session_free_stream, World.stream_releases, h, gst_rtsp_transport_free]

theorem foreach_free_stream_world (media : Ptr) (list : List Ptr) (w : World) :
    g_list_foreach gst_rtsp_session_free_stream media w list
      = { w with trace := w.trace ++ list.flatMap w.stream_releases } := by
  induction list generalizing w with
  | nil => simp [g_list_foreach]
  | cons stream list ih =>
    rw [g_list_foreach, ih, free_stream_world]
    simp only [List.flatMap_cons, List.append_assoc]
    congr 2

theorem free_media_world (w : World) (media session : Ptr) :
    gst_rtsp_session_free_media w media session
      = { w with trace := w.trace ++ w.media_releases media } := by
  unfold gst_rtsp_session_free_media
  rw [foreach_free_stream_world]
  cases hu : (w.medias media).url <;> cases hm : (w.medias media).media <;>
    simp [World.media_releases, hu, hm]

theorem foreach_free_media_world (session : Ptr) (list : List Ptr) (w : World) :
    g_list_foreach gst_rtsp_session_free_media session w list
      = { w with trace := w.trace ++ list.flatMap w.media_releases } := by
  induction list generalizing w with
  | nil => simp [g_list_foreach]
  | cons media list ih =>
    rw [g_list_foreach, ih, free_media_world]
    simp only [List.flatMap_cons, List.append_assoc]
    congr 2

theorem finalize_calls_eq (w : World) (sess : Ptr) :
    finalize_calls w sess
      = (w.sessions sess).medias.flatMap w.media_releases
        ++ [Call.g_list_free (w.sessions sess).medias, Call.g_free_sessionid sess,
            Call.parent_finalize sess] := by
  unfold finalize_calls gst_rtsp_session_finalize
  simp only [foreach_free_media_world]
  simp

theorem count_stream_releases (w : World) (stream : Ptr) :
    (∀ x, (w.stream_releases stream).count (Call.g_free_stream x)
      = if stream = x then 1 else 0) ∧
    (∀ t, (w.stream_releases stream).count (Call.gst_rtsp_transport_free t)
      = if (w.streams stream).client_trans = some t then 1 else 0) ∧
    (∀ x, (w.stream_releases stream).count (Call.g_free_media x) = 0) ∧
    (∀ x, (w.stream_releases stream).count (Call.gst_rtsp_url_free x) = 0) ∧
    (∀ x, (w.stream_releases stream).count (Call.g_object_unref x) = 0) ∧
    (∀ x, (w.stream_releases stream).count (Call.g_free_sessionid x) = 0) := by
  cases h : (w.streams stream).client_trans <;>
    simp [World.stream_releases, h, List.count_cons, List.count_nil]

theorem count_flatMap_stream_releases (w : World) (list : List Ptr) :
    (∀ x, (list.flatMap w.stream_releases).count (Call.g_free_stream x) = list.count x) ∧
    (∀ t, (list.flatMap w.stream_releases).count (Call.gst_rtsp_transport_free t)
      = (list.filterMap (fun stream => (w.streams stream).client_trans)).count t) ∧
    (∀ x, (list.flatMap w.stream_releases).count (Call.g_free_media x) = 0) ∧
    (∀ x, (list.flatMap w.stream_releases).count (Call.gst_rtsp_url_free x) = 0) ∧
    (∀ x, (list.flatMap w.stream_releases).count (Call.g_object_unref x) = 0) ∧
    (∀ x, (list.flatMap w.stream_releases).count (Call.g_free_sessionid x) = 0) := by
  induction list with
  | nil => simp
  | cons stream list ih =>
    obtain ⟨h1, h2, h3, h4, h5, h6⟩ := count_stream_releases w stream
    obtain ⟨i1, i2, i3, i4, i5, i6⟩ := ih
    refine ⟨?_, ?_, ?_, ?_, ?_, ?_⟩
    · intro x
      rw [List.flatMap_cons, List.count_append, h1, i1, List.count_cons]
      by_cases hx : stream = x <;> simp [hx, Nat.add_comm]
    · intro t
      rw [List.flatMap_cons, List.count_append, h2, i2]
      cases hc : (w.streams stream).client_trans with
      | none => simp [List.filterMap_cons, hc]
      | some c =>
        by_cases hct : c = t <;>
          simp [List.filterMap_cons, hc, List.count_cons, hct, Nat.add_comm]
    · intro x; rw [List.flatMap_cons, List.count_append, h3, i3]
    · intro x; rw [List.flatMap_cons, List.count_append, h4, i4]
    · intro x; rw [List.flatMap_cons, List.count_append, h5, i5]
    · intro x; rw [List.flatMap_cons, List.count_append, h6, i6]

theorem count_media_releases (w : World) (media : Ptr) :
    (∀ x, (w.media_releases media).count (Call.g_free_media x) = if media = x then 1 else 0) ∧
    (∀ x, (w.media_releases media).count (Call.g_free_stream x)
      = (w.medias media).streams.count x) ∧
    (∀ t, (w.media_releases media).count (Call.gst_rtsp_transport_free t)
      = ((w.medias media).streams.filterMap
          (fun stream => (w.streams stream).client_trans)).count t) ∧
    (∀ u, (w.media_releases media).count (Call.gst_rtsp_url_free u)
      = if (w.medias media).url = some u then 1 else 0) ∧
    (∀ m, (w.media_releases media).count (Call.g_object_unref m)
      = if (w.medias media).media = some m then 1 else 0) ∧
    (∀ x, (w.media_releases media).count (Call.g_free_sessionid x) = 0) := by
  obtain ⟨h1, h2, h3, h4, h5, h6⟩ := count_flatMap_stream_releases w (w.medias media).streams
  cases hu : (w.medias media).url <;> cases hm : (w.medias media).media <;>
    simp [World.media_releases, hu, hm, List.count_cons, List.count_nil, h1, h2, h3, h4, h5, h6]

theorem count_flatMap_media_releases (w : World) (list : List Ptr) :
    (∀ x, (list.flatMap w.media_releases).count (Call.g_free_media x) = list.count x) ∧
    (∀ x, (list.flatMap w.media_releases).count (Call.g_free_stream x)
      = (list.flatMap (fun media => (w.medias media).streams)).count x) ∧
    (∀ t, (list.flatMap w.media_releases).count (Call.gst_rtsp_transport_free t)
      = ((list.flatMap (fun media => (w.medias media).streams)).filterMap
          (fun stream => (w.streams stream).client_trans)).count t) ∧
    (∀ u, (list.flatMap w.media_releases).count (Call.gst_rtsp_url_free u)
      = (list.filterMap (fun media => (w.medias media).url)).count u) ∧
    (∀ m, (list.flatMap w.media_releases).count (Call.g_object_unref m)
      = (list.filterMap (fun media => (w.medias media).media)).count m) ∧
    (∀ x, (list.flatMap w.media_releases).count (Call.g_free_sessionid x) = 0) := by
  induction list with
  | nil => simp
  | cons media list ih =>
    obtain ⟨h1, h2, h3, h4, h5, h6⟩ := count_media_releases w media
    obtain ⟨i1, i2, i3, i4, i5, i6⟩ := ih
    refine ⟨?_, ?_, ?_, ?_, ?_, ?_⟩
    · intro x
      rw [List.flatMap_cons, List.count_append, h1, i1, List.count_cons]
      by_cases hx : media = x <;> simp [hx, Nat.add_comm]
    · intro x
      rw [List.flatMap_cons, List.count_append, h2, i2, List.flatMap_cons, List.count_append]
    · intro t
      rw [List.flatMap_cons, List.count_append, h3, i3, List.flatMap_cons,
        List.filterMap_append, List.count_append]
    · intro u
      rw [List.flatMap_cons, List.count_append, h4, i4]
      cases hc : (w.medias media).url with
      | none => simp [List.filterMap_cons, hc]
      | some c =>
        by_cases hcu : c = u <;>
          simp [List.filterMap_cons, hc, List.count_cons, hcu, Nat.add_comm]
    · intro m
      rw [List.flatMap_cons, List.count_append, h5, i5]
      cases hc : (w.medias media).media with
      | none => simp [List.filterMap_cons, hc]
      | some c =>
        by_cases hcm : c = m <;>
          simp [List.filterMap_cons, hc, List.count_cons, hcm, Nat.add_comm]
    · intro x; rw [List.flatMap_cons, List.count_append, h6, i6]

/-- C16: `gst_rtsp_session_finalize` changes nothing but the trace, to which it
adds release calls such that: every session media is freed once per entry of
the session's list, every session stream once per entry of the stream list of
its session media, every client transport once per stream that stores it (none
for a stream that stores none), every url copy once per session media carrying
it and every media handle reference once per session media holding it; the
session identifier is released once, after all of these, followed only by the
parent's finalize.  So when no object is held twice, each is released exactly
once, and nothing that is not held is released. -/
theorem finalize_releases_each_once (w : World) (sess : Ptr) :
    gst_rtsp_session_finalize w sess = { w with trace := w.trace ++ finalize_calls w sess } ∧
    (∀ media, (finalize_calls w sess).count (Call.g_free_media media)
      = (w.sessions sess).medias.count media) ∧
    (∀ stream, (finalize_calls w sess).count (Call.g_free_stream stream)
      = (w.session_streams sess).count stream) ∧
    (∀ t, (finalize_calls w sess).count (Call.gst_rtsp_transport_free t)
      = (w.session_transports sess).count t) ∧
    (∀ url, (finalize_calls w sess).count (Call.gst_rtsp_url_free url)
      = (w.session_urls sess).count url) ∧
    (∀ m, (finalize_calls w sess).count (Call.g_object_unref m)
      = (w.session_handles sess).count m) ∧
    (∃ before, finalize_calls w sess
        = before ++ [Call.g_free_sessionid sess, Call.parent_finalize sess] ∧
      ∀ x, before.count (Call.g_free_sessionid x) = 0) ∧
    ((w.sessions sess).medias.Nodup → ∀ media ∈ (w.sessions sess).medias,
      (finalize_calls w sess).count (Call.g_free_media media) = 1) ∧
    ((w.session_streams sess).Nodup → ∀ stream ∈ w.session_streams sess,
      (finalize_calls w sess).count (Call.g_free_stream stream) = 1) ∧
    ((w.session_transports sess).Nodup → ∀ t ∈ w.session_transports sess,
      (finalize_calls w sess).count (Call.gst_rtsp_transport_free t) = 1) ∧
    ((w.session_urls sess).Nodup → ∀ url ∈ w.session_urls sess,
      (finalize_calls w sess).count (Call.gst_rtsp_url_free url) = 1) ∧
    ((w.session_handles sess).Nodup → ∀ m ∈ w.session_handles sess,
      (finalize_calls w sess).count (Call.g_object_unref m) = 1) := by
  obtain ⟨h1, h2, h3, h4, h5, h6⟩ := count_flatMap_media_releases w (w.sessions sess).medias
  have hcalls := finalize_calls_eq w sess
  have c1 : ∀ media, (finalize_calls w sess).count (Call.g_free_media media)
      = (w.sessions sess).medias.count media := by
    intro media
    rw [hcalls, List.count_append, h1]
    simp [List.count_cons]
  have c2 : ∀ stream, (finalize_calls w sess).count (Call.g_free_stream stream)
      = (w.session_streams sess).count stream := by
    intro stream
    rw [hcalls, List.count_append, h2]
    simp [List.count_cons, World.session_streams]
  have c3 : ∀ t, (finalize_calls w sess).count (Call.gst_rtsp_transport_free t)
      = (w.session_transports sess).count t := by
    intro t
    rw [hcalls, List.count_append, h3]
    simp [List.count_cons, World.session_transports, World.session_streams]
  have c4 : ∀ url, (finalize_calls w sess).count (Call.gst_rtsp_url_free url)
      = (w.session_urls sess).count url := by
    intro url
    rw [hcalls, List.count_append, h4]
    simp [List.count_cons, World.session_urls]
  have c5 : ∀ m, (finalize_calls w sess).count (Call.g_object_unref m)
      = (w.session_handles sess).count m := by
    intro m
    rw [hcalls, List.count_append, h5]
    simp [List.count_cons, World.session_handles]
  refine ⟨?_, c1, c2, c3, c4, c5, ?_, ?_, ?_, ?_, ?_, ?_⟩
  · rw [hcalls]
    unfold gst_rtsp_session_finalize
    simp only [foreach_free_media_world]
    simp
  · refine ⟨(w.sessions sess).medias.flatMap w.media_releases
        ++ [Call.g_list_free (w.sessions sess).medias], ?_, ?_⟩
    · rw [hcalls]
      simp
    · intro x
      rw [List.count_append, h6]
      simp [List.count_cons]
  · intro hnodup media hmem
    rw [c1]
    exact List.count_eq_one_of_mem hnodup hmem
  · intro hnodup stream hmem
    rw [c2]
    exact List.count_eq_one_of_mem hnodup hmem
  · intro hnodup t hmem
    rw [c3]
    exact List.count_eq_one_of_mem hnodup hmem
  · intro hnodup url hmem
    rw [c4]
    exact List.count_eq_one_of_mem hnodup hmem
  · intro hnodup m hmem
    rw [c5]
    exact List.count_eq_one_of_mem hnodup hmem

/-- Witness of `finalize_releases_each_once`: the demo session with two streams,
one of them with a client transport; every object held is released once. -/
theorem finalize_releases_each_once_witness :
    finalize_calls World.demo_streams 1
      = [Call.g_free_stream 5, Call.gst_rtsp_transport_free 20, Call.g_free_stream 4,
          Call.g_list_free [5, 4], Call.gst_rtsp_url_free 3, Call.g_object_unref 7,
          Call.g_free_media 2, Call.g_list_free [2], Call.g_free_sessionid 1,
          Call.parent_finalize 1] ∧
    (∀ media ∈ (World.demo_streams.sessions 1).medias,
      (finalize_calls World.demo_streams 1).count (Call.g_free_media media) = 1) ∧
    (∀ stream ∈ World.demo_streams.session_streams 1,
      (finalize_calls World.demo_streams 1).count (Call.g_free_stream stream) = 1) ∧
    (∀ t ∈ World.demo_streams.session_transports 1,
      (finalize_calls World.demo_streams 1).count (Call.gst_rtsp_transport_free t) = 1) ∧
    (∀ url ∈ World.demo_streams.session_urls 1,
      (finalize_calls World.demo_streams 1).count (Call.gst_rtsp_url_free url) = 1) ∧
    (∀ m ∈ World.demo_streams.session_handles 1,
      (finalize_calls World.demo_streams 1).count (Call.g_object_unref m) = 1) :=
  ⟨by decide,
    (finalize_releases_each_once World.demo_streams 1).2.2.2.2.2.2.2.1 (by decide),
    (finalize_releases_each_once World.demo_streams 1).2.2.2.2.2.2.2.2.1 (by decide),
    (finalize_releases_each_once World.demo_streams 1).2.2.2.2.2.2.2.2.2.1 (by decide),
    (finalize_releases_each_once World.demo_streams 1).2.2.2.2.2.2.2.2.2.2.1 (by decide),
    (finalize_releases_each_once World.demo_streams 1).2.2.2.2.2.2.2.2.2.2.2 (by decide)⟩

end RtspSession
